import Mathlib

/-! # The nv4 RAMDAC (PRAMDAC) and the class 0x0055 method dispatcher

A shallow embedding of `src/video/nv/nv4/subsystems/nv4_pramdac.c` and
`src/video/nv/nv4/classes/nv4_class_0055_d3d6_tri.c`.

* The global `nv4` device is an explicit value of type `nv4_t`, threaded through every
  function together with the list of calls made into other subsystems (`World`).
* `uint32_t` values are natural numbers; arithmetic that can leave 32 bits is wrapped by `u32`.
  A shift by 32 or more, undefined in C, is wrapped like any other; no state reached from
  `nv4_pramdac_init` shifts by more than 12.
* In the frequency and period computations `float` and `double` values are exact rationals;
  a division by zero gives `none` (a value that is not a finite number).
* The refresh accumulator of the pixel clock poll is computed in IEEE 754 binary64 (`double`):
  every sum is rounded to the nearest representable value, ties to even.
* Constants, globals and functions that the two files use without defining them are the fields
  of `Env`.
-/

namespace NV4

/-! ## Machine arithmetic -/

/-- Wrap a natural number to the range of `uint32_t`. -/
def u32 (x : Nat) : Nat := x % 2 ^ 32

/-- A `float` or `double`: `some q` is the finite number `q`, `none` is a result that is not
a finite number. -/
abbrev fp := Option ℚ

/-- Floating-point division in exact arithmetic: a finite quotient when the divisor is a
non-zero finite number, and no finite number otherwise. -/
def fdiv (a b : fp) : fp :=
  match a, b with
  | some x, some y => if y = 0 then none else some (x / y)
  | _, _ => none

/-! ## Double precision -/

/-- A C `double` in IEEE 754 binary64: a finite number, an infinity or a NaN. A finite value is
kept as the rational it denotes; the sign of a zero is not kept, as no operation used here
tells the two zeros apart. Expressions are taken to be evaluated in binary64 itself, without
excess precision. -/
inductive double where
  | finite (value : ℚ)
  | pos_inf
  | neg_inf
  | nan
deriving DecidableEq

/-- The spacing of the binary64 numbers around `q`: 2 ^ (e - 52), where `e` is the binary
exponent of `q`, and -1022 for the subnormal range. -/
def binary64_ulp (q : ℚ) : ℚ :=
  (2 : ℚ) ^ (max (Int.log 2 |q|) (-1022) - 52)

/-- The nearest integer, the even one of the two when they are equally near. -/
def round_half_even (x : ℚ) : Int :=
  if x - Int.floor x < 1 / 2 then Int.floor x
  else if 1 / 2 < x - Int.floor x then Int.floor x + 1
  else if Int.floor x % 2 = 0 then Int.floor x
  else Int.floor x + 1

/-- Rounding of an exact result to binary64, to nearest and ties to even: the nearest multiple
of the spacing, and an infinity when that reaches 2 ^ 1024. -/
def round_binary64 (q : ℚ) : double :=
  let r : ℚ := (round_half_even (q / binary64_ulp q) : ℚ) * binary64_ulp q
  if (2 : ℚ) ^ 1024 ≤ r then .pos_inf
  else if r ≤ -(2 : ℚ) ^ 1024 then .neg_inf
  else .finite r

/-- Addition of doubles (`+`): the exact sum rounded; a NaN operand or the sum of opposite
infinities gives NaN, and an infinity absorbs a finite operand. -/
def double.add : double → double → double
  | .finite a, .finite b => round_binary64 (a + b)
  | .nan, _ => .nan
  | _, .nan => .nan
  | .pos_inf, .neg_inf => .nan
  | .neg_inf, .pos_inf => .nan
  | .pos_inf, _ => .pos_inf
  | _, .pos_inf => .pos_inf
  | .neg_inf, _ => .neg_inf
  | _, .neg_inf => .neg_inf

/-- Comparison of doubles (`>`): false whenever an operand is NaN. -/
def double.gt : double → double → Bool
  | .finite a, .finite b => decide (b < a)
  | .pos_inf, .finite _ => true
  | .pos_inf, .neg_inf => true
  | .finite _, .neg_inf => true
  | _, _ => false

/-- Comparison of doubles (`<=`): false whenever an operand is NaN. -/
def double.le : double → double → Bool
  | .finite a, .finite b => decide (a ≤ b)
  | .neg_inf, .finite _ => true
  | .neg_inf, .neg_inf => true
  | .neg_inf, .pos_inf => true
  | .finite _, .pos_inf => true
  | .pos_inf, .pos_inf => true
  | _, _ => false

/-- The value is one a `double` variable can hold: an infinity, a NaN, or a finite number that
rounding to binary64 leaves as it is. -/
def double.is_value : double → Prop
  | .finite q => round_binary64 q = .finite q
  | _ => True

/-! ## Calls into other subsystems -/

/-- The two polling callbacks that are handed to `rivatimer_create`. -/
inductive timer_callback where
  | nv4_pramdac_pixel_clock_poll
  | nv4_pramdac_memory_clock_poll
deriving DecidableEq, Repr

/-- A call made by this code into a function defined elsewhere, with its arguments.
Logging calls are recorded without their text. -/
inductive Call where
  | nv_log
  | nv_log_verbose_only
  | warning (class_id method_id : Nat)
  | rivatimer_create (period : fp) (callback : timer_callback)
  | rivatimer_start (timer : Nat)
  | rivatimer_set_period (timer : Nat) (period : fp)
  | video_blit_memtoscreen (x y w h : Int)
  | nv4_recalc_timings
  | nv4_ptimer_tick (real_time : ℚ)
  | nv4_pfifo_cache0_pull
  | nv4_pfifo_cache1_pull
  | nv4_pgraph_interrupt_invalid (interrupt_number : Nat)
deriving DecidableEq

/-! ## Device state -/

/-- The PRAMDAC registers (`nv4->pramdac`). The header that declares the structure is not part
of the two source files; every field is taken to be a `uint32_t`, the type for which the
register setters mask the written value explicitly. -/
structure nv4_pramdac_t where
  memory_clock_m : Nat
  memory_clock_n : Nat
  memory_clock_p : Nat
  pixel_clock_m : Nat
  pixel_clock_n : Nat
  pixel_clock_p : Nat
  coeff_select : Nat
  general_control : Nat
  vserr_width : Nat
  vbblank_end : Nat
  vblank_end : Nat
  vblank_start : Nat
  vequ_start : Nat
  vtotal : Nat
  hsync_width : Nat
  hburst_start : Nat
  hburst_end : Nat
  hblank_start : Nat
  hblank_end : Nat
  htotal : Nat
  hequ_width : Nat
  hserr_width : Nat
deriving DecidableEq

/-- The fields of the display-timing unit (`nv4->nvbase.svga`) that the PRAMDAC touches.
`vtotal` holds the 32 bits that were stored in it. -/
structure svga_t where
  override : Nat
  clock : fp
  vtotal : Nat
deriving DecidableEq

/-- The fields of `nv4->nvbase` that the PRAMDAC touches. A timer handle is a pointer:
`0` is `NULL`. -/
structure nv_base_t where
  svga : svga_t
  refresh_time : double
  refresh_clock : double
  pixel_clock_frequency : fp
  memory_clock_frequency : fp
  pixel_clock_timer : Nat
  memory_clock_timer : Nat
deriving DecidableEq

/-- The device (`*nv4`). -/
structure nv4_t where
  nvbase : nv_base_t
  pramdac : nv4_pramdac_t
deriving DecidableEq

/-- The device together with the calls made so far, oldest first. -/
structure World where
  nv4 : nv4_t
  calls : List Call
deriving DecidableEq

/-- Record one call. -/
def World.call (s : World) (c : Call) : World :=
  { s with calls := s.calls ++ [c] }

/-- What the two files use and do not define: the register addresses and other constants of
`vid_nv4.h`, the emulator globals `cpuclock`, `xsize` and `ysize`, the handle returned by
`rivatimer_create` (it may depend on every call made before) and the display-timing state
that `nv4_recalc_timings` leaves, which may depend on the whole device it is called on;
`nv4_recalc_timings` is taken to change nothing outside the display-timing unit it is
handed. -/
structure Env where
  NV4_PRAMDAC_CLOCK_PIXEL : Nat
  NV4_PRAMDAC_CLOCK_MEMORY : Nat
  NV4_PRAMDAC_COEFF_SELECT : Nat
  NV4_PRAMDAC_GENERAL_CONTROL : Nat
  NV4_PRAMDAC_VSERR_WIDTH : Nat
  NV4_PRAMDAC_VEQU_END : Nat
  NV4_PRAMDAC_VBBLANK_START : Nat
  NV4_PRAMDAC_VBBLANK_END : Nat
  NV4_PRAMDAC_HBLANK_END : Nat
  NV4_PRAMDAC_HBLANK_START : Nat
  NV4_PRAMDAC_VBLANK_END : Nat
  NV4_PRAMDAC_VBLANK_START : Nat
  NV4_PRAMDAC_VEQU_START : Nat
  NV4_PRAMDAC_VTOTAL : Nat
  NV4_PRAMDAC_HSYNC_WIDTH : Nat
  NV4_PRAMDAC_HBURST_START : Nat
  NV4_PRAMDAC_HBURST_END : Nat
  NV4_PRAMDAC_HTOTAL : Nat
  NV4_PRAMDAC_HEQU_WIDTH : Nat
  NV4_PRAMDAC_HSERR_WIDTH : Nat
  NV_REG_LIST_END : Nat
  NV4_86BOX_TIMER_SYSTEM_FIX_QUOTIENT : ℚ
  NV4_PGRAPH_INTR_1_SOFTWARE_METHOD_PENDING : Nat
  cpuclock : ℚ
  xsize : Int
  ysize : Int
  rivatimer_create : List Call → Nat
  nv4_recalc_timings : nv4_t → svga_t

/-! ## Polling callbacks -/

/-- Polls the pixel clock (`nv4_pramdac_pixel_clock_poll`). `refresh_time`, `refresh_clock`
and `real_time` are doubles: `1/60.0` is the double nearest to 1/60 and `+=` rounds the sum. -/
def nv4_pramdac_pixel_clock_poll (E : Env) (real_time : double) (s : World) : World :=
  if s.nv4.nvbase.svga.override = 0 then s
  else
    let s := if s.nv4.nvbase.refresh_time = .finite 0
      then { s with nv4.nvbase.refresh_time := round_binary64 (1 / 60) } else s
    let s := { s with
      nv4.nvbase.refresh_clock := double.add s.nv4.nvbase.refresh_clock real_time }
    if double.gt s.nv4.nvbase.refresh_clock s.nv4.nvbase.refresh_time then
      let s := s.call (.video_blit_memtoscreen 0 0 E.xsize E.ysize)
      { s with nv4.nvbase.refresh_clock := .finite 0 }
    else s

/-- Polls the memory clock (`nv4_pramdac_memory_clock_poll`). -/
def nv4_pramdac_memory_clock_poll (real_time : ℚ) (s : World) : World :=
  let s := s.call (.nv4_ptimer_tick real_time)
  let s := s.call .nv4_pfifo_cache0_pull
  s.call .nv4_pfifo_cache1_pull

/-! ## Clock registers -/

/-- Gets the vram clock register (`nv4_pramdac_get_vram_clock_register`). -/
def nv4_pramdac_get_vram_clock_register (d : nv4_t) : Nat :=
  u32 (u32 (d.pramdac.memory_clock_m + u32 (d.pramdac.memory_clock_n <<< 8))
    + u32 (d.pramdac.memory_clock_p <<< 16))

/-- Gets the pixel clock register (`nv4_pramdac_get_pixel_clock_register`). -/
def nv4_pramdac_get_pixel_clock_register (d : nv4_t) : Nat :=
  u32 (u32 (d.pramdac.pixel_clock_m + u32 (d.pramdac.pixel_clock_n <<< 8))
    + u32 (d.pramdac.pixel_clock_p <<< 16))

/-- Recomputes the memory clock and programs its timer (`nv4_pramdac_set_vram_clock`). -/
def nv4_pramdac_set_vram_clock (E : Env) (s : World) : World :=
  let frequency : ℚ := 13500000
  let s := if s.nv4.pramdac.memory_clock_m = 0
    then { s with nv4.pramdac.memory_clock_m := 1 } else s
  let s := if s.nv4.pramdac.memory_clock_n = 0
    then { s with nv4.pramdac.memory_clock_n := 1 } else s
  let frequency : fp := fdiv (some (frequency * s.nv4.pramdac.memory_clock_n))
    (some (u32 (s.nv4.pramdac.memory_clock_m <<< s.nv4.pramdac.memory_clock_p) : ℚ))
  let time : fp := fdiv (some (1000000 * E.NV4_86BOX_TIMER_SYSTEM_FIX_QUOTIENT)) frequency
  let s := s.call .nv_log
  let s := { s with nv4.nvbase.memory_clock_frequency := frequency }
  let s := if s.nv4.nvbase.memory_clock_timer = 0 then
      let timer := E.rivatimer_create s.calls
      let s := s.call (.rivatimer_create time .nv4_pramdac_memory_clock_poll)
      let s := { s with nv4.nvbase.memory_clock_timer := timer }
      s.call (.rivatimer_start s.nv4.nvbase.memory_clock_timer)
    else s
  s.call (.rivatimer_set_period s.nv4.nvbase.memory_clock_timer time)

/-- Recomputes the pixel clock and programs its timer (`nv4_pramdac_set_pixel_clock`).
The second guard tests and sets `memory_clock_n`, as the source does. -/
def nv4_pramdac_set_pixel_clock (E : Env) (s : World) : World :=
  let frequency : ℚ := 13500000
  let s := if s.nv4.pramdac.pixel_clock_m = 0
    then { s with nv4.pramdac.pixel_clock_m := 1 } else s
  let s := if s.nv4.pramdac.memory_clock_n = 0
    then { s with nv4.pramdac.memory_clock_n := 1 } else s
  let frequency : fp := fdiv (some (frequency * s.nv4.pramdac.pixel_clock_n))
    (some (u32 (s.nv4.pramdac.pixel_clock_m <<< s.nv4.pramdac.pixel_clock_p) : ℚ))
  let s := { s with nv4.nvbase.svga.clock := fdiv (some E.cpuclock) frequency }
  let time : fp := fdiv (some (1000000 * E.NV4_86BOX_TIMER_SYSTEM_FIX_QUOTIENT)) frequency
  let s := s.call .nv_log
  let s := { s with nv4.nvbase.pixel_clock_frequency := frequency }
  let s := if s.nv4.nvbase.pixel_clock_timer = 0 then
      let timer := E.rivatimer_create s.calls
      let s := s.call (.rivatimer_create time .nv4_pramdac_pixel_clock_poll)
      let s := { s with nv4.nvbase.pixel_clock_timer := timer }
      s.call (.rivatimer_start s.nv4.nvbase.pixel_clock_timer)
    else s
  s.call (.rivatimer_set_period s.nv4.nvbase.pixel_clock_timer time)

/-- Write hook of the memory clock register (`nv4_pramdac_set_vram_clock_register`). -/
def nv4_pramdac_set_vram_clock_register (E : Env) (value : Nat) (s : World) : World :=
  let s := { s with nv4.pramdac.memory_clock_m := value &&& 0xFF }
  let s := { s with nv4.pramdac.memory_clock_n := (value >>> 8) &&& 0xFF }
  let s := { s with nv4.pramdac.memory_clock_p := (value >>> 16) &&& 0x07 }
  nv4_pramdac_set_vram_clock E s

/-- Write hook of the pixel clock register (`nv4_pramdac_set_pixel_clock_register`). -/
def nv4_pramdac_set_pixel_clock_register (E : Env) (value : Nat) (s : World) : World :=
  let s := { s with nv4.pramdac.pixel_clock_m := value &&& 0xFF }
  let s := { s with nv4.pramdac.pixel_clock_n := (value >>> 8) &&& 0xFF }
  let s := { s with nv4.pramdac.pixel_clock_p := (value >>> 16) &&& 0x07 }
  nv4_pramdac_set_pixel_clock E s

/-- Initialises the PRAMDAC (`nv4_pramdac_init`). -/
def nv4_pramdac_init (E : Env) (s : World) : World :=
  let s := s.call .nv_log
  let s := { s with nv4.pramdac.pixel_clock_m := 0x07 }
  let s := { s with nv4.pramdac.memory_clock_m := 0x07 }
  let s := { s with nv4.pramdac.pixel_clock_n := 0xc8 }
  let s := { s with nv4.pramdac.memory_clock_n := 0xc8 }
  let s := { s with nv4.pramdac.pixel_clock_p := 0x0c }
  let s := { s with nv4.pramdac.memory_clock_p := 0x0c }
  let s := nv4_pramdac_set_pixel_clock E s
  let s := nv4_pramdac_set_vram_clock E s
  s.call .nv_log

/-! ## Register table and dispatch -/

/-- A register descriptor (`nv_register_t`): address, optional friendly name, optional read
hook and optional write hook. -/
structure nv_register_t where
  address : Nat
  friendly_name : Option String
  on_read : Option (nv4_t → Nat)
  on_write : Option (Env → Nat → World → World)

/-- The PRAMDAC register list (`pramdac_registers`), sentinel included. -/
def pramdac_registers (E : Env) : List nv_register_t :=
  [ ⟨E.NV4_PRAMDAC_CLOCK_PIXEL, some "PRAMDAC - nv4 GPU Core - Pixel clock",
      some nv4_pramdac_get_pixel_clock_register, some nv4_pramdac_set_pixel_clock_register⟩,
    ⟨E.NV4_PRAMDAC_CLOCK_MEMORY, some "PRAMDAC - nv4 GPU Core - Memory clock",
      some nv4_pramdac_get_vram_clock_register, some nv4_pramdac_set_vram_clock_register⟩,
    ⟨E.NV4_PRAMDAC_COEFF_SELECT, some "PRAMDAC - PLL Clock Coefficient Select", none, none⟩,
    ⟨E.NV4_PRAMDAC_GENERAL_CONTROL, some "PRAMDAC - General Control", none, none⟩,
    ⟨E.NV4_PRAMDAC_VSERR_WIDTH, some "PRAMDAC - Vertical Sync Error Width", none, none⟩,
    ⟨E.NV4_PRAMDAC_VEQU_END, some "PRAMDAC - VEqu End", none, none⟩,
    ⟨E.NV4_PRAMDAC_VBBLANK_START, some "PRAMDAC - VBBlank Start", none, none⟩,
    ⟨E.NV4_PRAMDAC_VBBLANK_END, some "PRAMDAC - VBBlank End", none, none⟩,
    ⟨E.NV4_PRAMDAC_HBLANK_END, some "PRAMDAC - Horizontal Blanking Interval End", none, none⟩,
    ⟨E.NV4_PRAMDAC_HBLANK_START, some "PRAMDAC - Horizontal Blanking Interval Start",
      none, none⟩,
    ⟨E.NV4_PRAMDAC_VBLANK_END, some "PRAMDAC - Vertical Blanking Interval End", none, none⟩,
    ⟨E.NV4_PRAMDAC_VBLANK_START, some "PRAMDAC - Vertical Blanking Interval Start", none, none⟩,
    ⟨E.NV4_PRAMDAC_VEQU_START, some "PRAMDAC - VEqu Start", none, none⟩,
    ⟨E.NV4_PRAMDAC_VTOTAL, some "PRAMDAC - Total Vertical Lines", none, none⟩,
    ⟨E.NV4_PRAMDAC_HSYNC_WIDTH, some "PRAMDAC - Horizontal Sync Pulse Width", none, none⟩,
    ⟨E.NV4_PRAMDAC_HBURST_START, some "PRAMDAC - Horizontal Burst Signal Start", none, none⟩,
    ⟨E.NV4_PRAMDAC_HBURST_END, some "PRAMDAC - Horizontal Burst Signal Start", none, none⟩,
    ⟨E.NV4_PRAMDAC_HTOTAL, some "PRAMDAC - Total Horizontal Lines", none, none⟩,
    ⟨E.NV4_PRAMDAC_HEQU_WIDTH, some "PRAMDAC - HEqu End", none, none⟩,
    ⟨E.NV4_PRAMDAC_HSERR_WIDTH, some "PRAMDAC - Horizontal Sync Error", none, none⟩,
    ⟨E.NV_REG_LIST_END, none, none, none⟩ ]

/-- Modelled from the spec: `nv_get_register` is called by the PRAMDAC code and defined in
neither source file. The spec describes a table as "a fixed ordered sequence of descriptors
terminated by a sentinel address" in which "first match wins", and the lookup as one that
"scans the table for the first descriptor whose address equals the requested address": the
scan ends without a result at the sentinel, or at the end of the table. -/
def nv_get_register (list_end address : Nat) : List nv_register_t → Option nv_register_t
  | [] => none
  | r :: rs =>
    if r.address = list_end then none
    else if r.address = address then some r
    else nv_get_register list_end address rs

/-- The fallback `switch` of `nv4_pramdac_read`: the field read for a register without a read
hook, `ret` keeping its initial value `0` when no case matches. -/
def nv4_pramdac_read_switch (E : Env) (address : Nat) (d : nv4_t) : Nat :=
  if address = E.NV4_PRAMDAC_COEFF_SELECT then d.pramdac.coeff_select
  else if address = E.NV4_PRAMDAC_GENERAL_CONTROL then d.pramdac.general_control
  else if address = E.NV4_PRAMDAC_VSERR_WIDTH then d.pramdac.vserr_width
  else if address = E.NV4_PRAMDAC_VBBLANK_END then d.pramdac.vbblank_end
  else if address = E.NV4_PRAMDAC_VBLANK_END then d.pramdac.vblank_end
  else if address = E.NV4_PRAMDAC_VBLANK_START then d.pramdac.vblank_start
  else if address = E.NV4_PRAMDAC_VEQU_START then d.pramdac.vequ_start
  else if address = E.NV4_PRAMDAC_VTOTAL then d.pramdac.vtotal
  else if address = E.NV4_PRAMDAC_HSYNC_WIDTH then d.pramdac.hsync_width
  else if address = E.NV4_PRAMDAC_HBURST_START then d.pramdac.hburst_start
  else if address = E.NV4_PRAMDAC_HBURST_END then d.pramdac.hburst_end
  else if address = E.NV4_PRAMDAC_HBLANK_START then d.pramdac.hblank_start
  else if address = E.NV4_PRAMDAC_HBLANK_END then d.pramdac.hblank_end
  else if address = E.NV4_PRAMDAC_HTOTAL then d.pramdac.htotal
  else if address = E.NV4_PRAMDAC_HEQU_WIDTH then d.pramdac.hequ_width
  else if address = E.NV4_PRAMDAC_HSERR_WIDTH then d.pramdac.hserr_width
  else 0x00

/-- Register read (`nv4_pramdac_read`): the value returned and the world after the call. -/
def nv4_pramdac_read (E : Env) (address : Nat) (s : World) : Nat × World :=
  let reg := nv_get_register E.NV_REG_LIST_END address (pramdac_registers E)
  let s := s.call .nv_log_verbose_only
  match reg with
  | some reg =>
    let ret := match reg.on_read with
      | some on_read => on_read s.nv4
      | none => nv4_pramdac_read_switch E reg.address s.nv4
    (ret, s.call .nv_log_verbose_only)
  | none => (0x00, s.call .nv_log)

/-- The fallback `switch` of `nv4_pramdac_write`, for a register without a write hook. -/
def nv4_pramdac_write_switch (E : Env) (address value : Nat) (s : World) : World :=
  if address = E.NV4_PRAMDAC_COEFF_SELECT then { s with nv4.pramdac.coeff_select := value }
  else if address = E.NV4_PRAMDAC_GENERAL_CONTROL then
    let s := { s with nv4.pramdac.general_control := value }
    let s := s.call .nv4_recalc_timings
    { s with nv4.nvbase.svga := E.nv4_recalc_timings s.nv4 }
  else if address = E.NV4_PRAMDAC_VSERR_WIDTH then { s with nv4.pramdac.vserr_width := value }
  else if address = E.NV4_PRAMDAC_VBBLANK_END then { s with nv4.pramdac.vbblank_end := value }
  else if address = E.NV4_PRAMDAC_VBLANK_END then { s with nv4.pramdac.vblank_end := value }
  else if address = E.NV4_PRAMDAC_VBLANK_START then
    { s with nv4.pramdac.vblank_start := value }
  else if address = E.NV4_PRAMDAC_VEQU_START then { s with nv4.pramdac.vequ_start := value }
  else if address = E.NV4_PRAMDAC_VTOTAL then { s with nv4.nvbase.svga.vtotal := value }
  else if address = E.NV4_PRAMDAC_HSYNC_WIDTH then { s with nv4.pramdac.hsync_width := value }
  else if address = E.NV4_PRAMDAC_HBURST_START then
    { s with nv4.pramdac.hburst_start := value }
  else if address = E.NV4_PRAMDAC_HBURST_END then { s with nv4.pramdac.hburst_end := value }
  else if address = E.NV4_PRAMDAC_HBLANK_START then
    { s with nv4.pramdac.hblank_start := value }
  else if address = E.NV4_PRAMDAC_HBLANK_END then { s with nv4.pramdac.hblank_end := value }
  else if address = E.NV4_PRAMDAC_HTOTAL then { s with nv4.pramdac.htotal := value }
  else if address = E.NV4_PRAMDAC_HEQU_WIDTH then { s with nv4.pramdac.hequ_width := value }
  else if address = E.NV4_PRAMDAC_HSERR_WIDTH then { s with nv4.pramdac.hserr_width := value }
  else s

/-- Register write (`nv4_pramdac_write`). -/
def nv4_pramdac_write (E : Env) (address value : Nat) (s : World) : World :=
  let reg := nv_get_register E.NV_REG_LIST_END address (pramdac_registers E)
  let s := s.call .nv_log_verbose_only
  match reg with
  | some reg =>
    let s := match reg.on_write with
      | some on_write => on_write E value s
      | none => nv4_pramdac_write_switch E reg.address value s
    s.call .nv_log_verbose_only
  | none => s.call .nv_log

/-! ## Class 0x0055 -/

/-- The object context handed to a method (`nv4_ramin_context_t`): the class identifier and
the remaining addressing bits. -/
structure nv4_ramin_context_t where
  class_id : Nat
  addressing : Nat
deriving DecidableEq

/-- A graphics object (`nv4_grobj_t`), as its words in instance memory. -/
structure nv4_grobj_t where
  words : List Nat
deriving DecidableEq

/-- Method dispatch of class 0x0055 (`nv4_class_0055_method`): the `switch` has the `default`
label only. -/
def nv4_class_0055_method (E : Env) (param method_id : Nat) (context : nv4_ramin_context_t)
    (grobj : nv4_grobj_t) (s : World) : World :=
  let _ := param
  let _ := grobj
  let s := s.call (.warning context.class_id method_id)
  s.call (.nv4_pgraph_interrupt_invalid E.NV4_PGRAPH_INTR_1_SOFTWARE_METHOD_PENDING)

/-! ## Sequences of operations -/

/-- Is the call a `rivatimer_create`? -/
def Call.is_rivatimer_create : Call → Bool
  | .rivatimer_create _ _ => true
  | _ => false

/-- Is the call a `rivatimer_start`? -/
def Call.is_rivatimer_start : Call → Bool
  | .rivatimer_start _ => true
  | _ => false

/-- Is the call a `rivatimer_set_period`? -/
def Call.is_rivatimer_set_period : Call → Bool
  | .rivatimer_set_period _ _ => true
  | _ => false

/-- The timer period computed from a frequency:
`(1000000.0 * NV4_86BOX_TIMER_SYSTEM_FIX_QUOTIENT) / (double)frequency`. -/
def timer_period (E : Env) (frequency : fp) : fp :=
  fdiv (some (1000000 * E.NV4_86BOX_TIMER_SYSTEM_FIX_QUOTIENT)) frequency

/-- An arbitrary change of the PRAMDAC registers, everything else kept. -/
def World.change (s : World) (f : nv4_pramdac_t → nv4_pramdac_t) : World :=
  { s with nv4.pramdac := f s.nv4.pramdac }

/-- A write to one of the two clock registers through its write hook. -/
inductive clock_write where
  | pixel (value : Nat)
  | memory (value : Nat)
deriving DecidableEq

/-- Perform one clock register write. -/
def clock_write.run (E : Env) (s : World) : clock_write → World
  | .pixel value => nv4_pramdac_set_pixel_clock_register E value s
  | .memory value => nv4_pramdac_set_vram_clock_register E value s

/-- The state reached from `nv4_pramdac_init` by a sequence of clock register writes. -/
def after_clock_writes (E : Env) (s : World) (ws : List clock_write) : World :=
  ws.foldl (clock_write.run E) (nv4_pramdac_init E s)

/-- The state reached from `nv4_pramdac_init` by a sequence of `nv4_pramdac_write` calls,
given as pairs of address and value. -/
def after_writes (E : Env) (s : World) (ws : List (Nat × Nat)) : World :=
  ws.foldl (fun s w => nv4_pramdac_write E w.1 w.2 s) (nv4_pramdac_init E s)

/-- The two clock domains. -/
inductive clock_domain where
  | pixel
  | memory
deriving DecidableEq

/-- The clock recomputation of a domain: `nv4_pramdac_set_pixel_clock` or
`nv4_pramdac_set_vram_clock`. -/
def clock_domain.set_clock (E : Env) : clock_domain → World → World
  | .pixel => nv4_pramdac_set_pixel_clock E
  | .memory => nv4_pramdac_set_vram_clock E

/-- The stored timer handle of a domain. -/
def clock_domain.timer : clock_domain → World → Nat
  | .pixel => fun s => s.nv4.nvbase.pixel_clock_timer
  | .memory => fun s => s.nv4.nvbase.memory_clock_timer

/-- The stored frequency of a domain. -/
def clock_domain.frequency : clock_domain → World → fp
  | .pixel => fun s => s.nv4.nvbase.pixel_clock_frequency
  | .memory => fun s => s.nv4.nvbase.memory_clock_frequency

/-- The polling callback of a domain. -/
def clock_domain.callback : clock_domain → timer_callback
  | .pixel => .nv4_pramdac_pixel_clock_poll
  | .memory => .nv4_pramdac_memory_clock_poll

/-- Calls of the clock recomputation of one domain, each preceded by an arbitrary change of
the PRAMDAC registers. -/
def set_clock_calls (E : Env) (d : clock_domain) (s : World)
    (changes : List (nv4_pramdac_t → nv4_pramdac_t)) : World :=
  changes.foldl (fun s f => d.set_clock E (s.change f)) s

/-- The calls recorded in `s'` after those already recorded in `s`. -/
def new_calls (s s' : World) : List Call :=
  s'.calls.drop s.calls.length

/-- The refresh threshold a poll works with: `refresh_time`, or the default `1/60.0` when it
is unset. -/
def refresh_threshold (s : World) : double :=
  if s.nv4.nvbase.refresh_time = .finite 0 then round_binary64 (1 / 60)
  else s.nv4.nvbase.refresh_time

/-- A concrete environment on which the definitions can be evaluated: pairwise distinct
register addresses, a fix quotient of `1`, a `rivatimer_create` that hands out handle `n + 1`
when `n` calls were made before, and an `nv4_recalc_timings` that sets the override mode
from bit 0 of `general_control`. -/
def E0 : Env where
  NV4_PRAMDAC_CLOCK_PIXEL := 0x680508
  NV4_PRAMDAC_CLOCK_MEMORY := 0x680504
  NV4_PRAMDAC_COEFF_SELECT := 0x68050C
  NV4_PRAMDAC_GENERAL_CONTROL := 0x680600
  NV4_PRAMDAC_VSERR_WIDTH := 0x680700
  NV4_PRAMDAC_VEQU_END := 0x680704
  NV4_PRAMDAC_VBBLANK_START := 0x680714
  NV4_PRAMDAC_VBBLANK_END := 0x680708
  NV4_PRAMDAC_HBLANK_END := 0x680730
  NV4_PRAMDAC_HBLANK_START := 0x68072C
  NV4_PRAMDAC_VBLANK_END := 0x68070C
  NV4_PRAMDAC_VBLANK_START := 0x680710
  NV4_PRAMDAC_VEQU_START := 0x680718
  NV4_PRAMDAC_VTOTAL := 0x68071C
  NV4_PRAMDAC_HSYNC_WIDTH := 0x680720
  NV4_PRAMDAC_HBURST_START := 0x680724
  NV4_PRAMDAC_HBURST_END := 0x680728
  NV4_PRAMDAC_HTOTAL := 0x680734
  NV4_PRAMDAC_HEQU_WIDTH := 0x680738
  NV4_PRAMDAC_HSERR_WIDTH := 0x68073C
  NV_REG_LIST_END := 0xD15EA5E
  NV4_86BOX_TIMER_SYSTEM_FIX_QUOTIENT := 1
  NV4_PGRAPH_INTR_1_SOFTWARE_METHOD_PENDING := 4
  cpuclock := 100000000
  xsize := 640
  ysize := 480
  rivatimer_create := fun calls => calls.length + 1
  nv4_recalc_timings := fun d =>
    { d.nvbase.svga with override := d.pramdac.general_control % 2 }

/-- A zeroed device with no call made. -/
def zeroed : World where
  nv4 :=
    { nvbase :=
        { svga := { override := 0, clock := some 0, vtotal := 0 }
          refresh_time := .finite 0
          refresh_clock := .finite 0
          pixel_clock_frequency := some 0
          memory_clock_frequency := some 0
          pixel_clock_timer := 0
          memory_clock_timer := 0 }
      pramdac := ⟨0, 0, 0, 0, 0, 0, 0, 0, 0, 0, 0, 0, 0, 0, 0, 0, 0, 0, 0, 0, 0, 0⟩ }
  calls := []

/-- A zeroed device with the display in override mode. -/
def zeroed_override : World :=
  { zeroed with nv4.nvbase.svga.override := 1 }

/-- A zeroed device with the display in override mode and a refresh time of half a second. -/
def half_second_refresh : World :=
  { zeroed with
    nv4.nvbase.svga.override := 1
    nv4.nvbase.refresh_time := .finite (1 / 2) }

/-- The double nearest to 0.01: 5764607523034235 / 2 ^ 59. -/
def centisecond : double :=
  .finite (5764607523034235 / 576460752303423488)

/-- A state with the clock divisors of the initialised zeroed device and every other PRAMDAC
register, the display-timing fields and the timers filled with other values. -/
def scrambled : World where
  nv4 :=
    { nvbase :=
        { svga := { override := 1, clock := none, vtotal := 525 }
          refresh_time := .finite (1 / 64)
          refresh_clock := .finite (1 / 256)
          pixel_clock_frequency := some 25175000
          memory_clock_frequency := none
          pixel_clock_timer := 41
          memory_clock_timer := 42 }
      pramdac := ⟨7, 200, 12, 7, 200, 12, 1, 2, 3, 4, 5, 6, 7, 8, 9, 10, 11, 12, 13, 14, 15, 16⟩ }
  calls := [Call.nv4_recalc_timings]

/-- Two changes of the memory clock divisors, to M = 7, N = 200, P = 1 and then to M = 3,
N = 100, P = 0. -/
def two_changes : List (nv4_pramdac_t → nv4_pramdac_t) :=
  [ fun p => { p with memory_clock_m := 7, memory_clock_n := 200, memory_clock_p := 1 },
    fun p => { p with memory_clock_m := 3, memory_clock_n := 100, memory_clock_p := 0 } ]

/-! ## Vocabulary of the register and frequency properties -/

/-- The descriptors of `pramdac_registers` in front of the sentinel. -/
def pramdac_entries (E : Env) : List nv_register_t :=
  (pramdac_registers E).takeWhile (fun r => r.address != E.NV_REG_LIST_END)

/-- The addresses of the descriptors without a write hook. -/
def hookless_addresses (E : Env) : List Nat :=
  ((pramdac_entries E).filter (fun r => r.on_write.isNone)).map nv_register_t.address

/-- The `case` labels of the `switch` in `nv4_pramdac_read`, in source order. -/
def read_switch_cases (E : Env) : List Nat :=
  [ E.NV4_PRAMDAC_COEFF_SELECT, E.NV4_PRAMDAC_GENERAL_CONTROL, E.NV4_PRAMDAC_VSERR_WIDTH,
    E.NV4_PRAMDAC_VBBLANK_END, E.NV4_PRAMDAC_VBLANK_END, E.NV4_PRAMDAC_VBLANK_START,
    E.NV4_PRAMDAC_VEQU_START, E.NV4_PRAMDAC_VTOTAL, E.NV4_PRAMDAC_HSYNC_WIDTH,
    E.NV4_PRAMDAC_HBURST_START, E.NV4_PRAMDAC_HBURST_END, E.NV4_PRAMDAC_HBLANK_START,
    E.NV4_PRAMDAC_HBLANK_END, E.NV4_PRAMDAC_HTOTAL, E.NV4_PRAMDAC_HEQU_WIDTH,
    E.NV4_PRAMDAC_HSERR_WIDTH ]

/-- The `case` labels of the `switch` in `nv4_pramdac_write`, in source order. -/
def write_switch_cases (E : Env) : List Nat :=
  [ E.NV4_PRAMDAC_COEFF_SELECT, E.NV4_PRAMDAC_GENERAL_CONTROL, E.NV4_PRAMDAC_VSERR_WIDTH,
    E.NV4_PRAMDAC_VBBLANK_END, E.NV4_PRAMDAC_VBLANK_END, E.NV4_PRAMDAC_VBLANK_START,
    E.NV4_PRAMDAC_VEQU_START, E.NV4_PRAMDAC_VTOTAL, E.NV4_PRAMDAC_HSYNC_WIDTH,
    E.NV4_PRAMDAC_HBURST_START, E.NV4_PRAMDAC_HBURST_END, E.NV4_PRAMDAC_HBLANK_START,
    E.NV4_PRAMDAC_HBLANK_END, E.NV4_PRAMDAC_HTOTAL, E.NV4_PRAMDAC_HEQU_WIDTH,
    E.NV4_PRAMDAC_HSERR_WIDTH ]

/-- The fifteen registers that are stored in a PRAMDAC field of their own and read back from
it: the labels of the write `switch` without `NV4_PRAMDAC_VTOTAL`. -/
def stored_registers (E : Env) : List Nat :=
  [ E.NV4_PRAMDAC_COEFF_SELECT, E.NV4_PRAMDAC_GENERAL_CONTROL, E.NV4_PRAMDAC_VSERR_WIDTH,
    E.NV4_PRAMDAC_VBBLANK_END, E.NV4_PRAMDAC_VBLANK_END, E.NV4_PRAMDAC_VBLANK_START,
    E.NV4_PRAMDAC_VEQU_START, E.NV4_PRAMDAC_HSYNC_WIDTH, E.NV4_PRAMDAC_HBURST_START,
    E.NV4_PRAMDAC_HBURST_END, E.NV4_PRAMDAC_HBLANK_START, E.NV4_PRAMDAC_HBLANK_END,
    E.NV4_PRAMDAC_HTOTAL, E.NV4_PRAMDAC_HEQU_WIDTH, E.NV4_PRAMDAC_HSERR_WIDTH ]

/-- The addresses of `pramdac_registers`, the sentinel included, are pairwise distinct. -/
def Env.distinct (E : Env) : Prop :=
  ((pramdac_registers E).map nv_register_t.address).Nodup

instance (E : Env) : Decidable E.distinct :=
  inferInstanceAs (Decidable (List.Nodup _))

/-- How often `nv4_recalc_timings` is called by one `nv4_pramdac_write`. -/
def recalc_count (E : Env) (address value : Nat) (s : World) : Nat :=
  (new_calls s (nv4_pramdac_write E address value s)).count Call.nv4_recalc_timings

/-- A frequency rounded to the nearest hertz. -/
def nearest_hertz (q : ℚ) : Int :=
  Int.floor (q + 1 / 2)

/-- Both values are finite numbers and the first is strictly below the second. -/
def fp_lt (a b : fp) : Prop :=
  match a, b with
  | some x, some y => x < y
  | _, _ => False

/-- The state with the divisors of one clock domain replaced. -/
def clock_domain.with_divisors : clock_domain → World → Nat → Nat → Nat → World
  | .pixel, s, m, n, p =>
    { s with
      nv4.pramdac.pixel_clock_m := m
      nv4.pramdac.pixel_clock_n := n
      nv4.pramdac.pixel_clock_p := p }
  | .memory, s, m, n, p =>
    { s with
      nv4.pramdac.memory_clock_m := m
      nv4.pramdac.memory_clock_n := n
      nv4.pramdac.memory_clock_p := p }

/-- The frequency that the clock recomputation of a domain stores when it runs on the
divisors `m`, `n`, `p`. -/
def clock_domain.computed_frequency (E : Env) (d : clock_domain) (s : World) (m n p : Nat) : fp :=
  d.frequency (d.set_clock E (d.with_divisors s m n p))

/-- The frequency formula in the words of the specification:
`13500000 * N / (M << P)`, in exact arithmetic. -/
def spec_frequency (m n p : Nat) : ℚ :=
  13500000 * (n : ℚ) / ((m <<< p : Nat) : ℚ)

/-! ## Bit operations as arithmetic -/

theorem and_0xFF (v : Nat) : v &&& 0xFF = v % 256 :=
  Nat.and_pow_two_sub_one_eq_mod v 8

theorem and_0x07 (v : Nat) : v &&& 0x07 = v % 8 :=
  Nat.and_pow_two_sub_one_eq_mod v 3

theorem and_0x7FFFF (v : Nat) : v &&& 0x7FFFF = v % 524288 :=
  Nat.and_pow_two_sub_one_eq_mod v 19

theorem shr_8 (v : Nat) : v >>> 8 = v / 256 :=
  Nat.shiftRight_eq_div_pow v 8

theorem shr_16 (v : Nat) : v >>> 16 = v / 65536 :=
  Nat.shiftRight_eq_div_pow v 16

theorem shl_8 (v : Nat) : v <<< 8 = v * 256 :=
  Nat.shiftLeft_eq v 8

theorem shl_16 (v : Nat) : v <<< 16 = v * 65536 :=
  Nat.shiftLeft_eq v 16

/-! ## What the clock recomputations do to the PRAMDAC registers -/

/-- The only registers `nv4_pramdac_set_vram_clock` changes are the memory clock M and N,
each replaced by 1 when it is 0. -/
theorem set_vram_clock_pramdac (E : Env) (s : World) :
    (nv4_pramdac_set_vram_clock E s).nv4.pramdac =
      { s.nv4.pramdac with
        memory_clock_m :=
          if s.nv4.pramdac.memory_clock_m = 0 then 1 else s.nv4.pramdac.memory_clock_m
        memory_clock_n :=
          if s.nv4.pramdac.memory_clock_n = 0 then 1 else s.nv4.pramdac.memory_clock_n } := by
  unfold nv4_pramdac_set_vram_clock
  simp only [World.call]
  split_ifs <;> simp_all

/-- The only registers `nv4_pramdac_set_pixel_clock` changes are the pixel clock M and the
memory clock N, each replaced by 1 when it is 0; the pixel clock N is left as it is. -/
theorem set_pixel_clock_pramdac (E : Env) (s : World) :
    (nv4_pramdac_set_pixel_clock E s).nv4.pramdac =
      { s.nv4.pramdac with
        pixel_clock_m :=
          if s.nv4.pramdac.pixel_clock_m = 0 then 1 else s.nv4.pramdac.pixel_clock_m
        memory_clock_n :=
          if s.nv4.pramdac.memory_clock_n = 0 then 1 else s.nv4.pramdac.memory_clock_n } := by
  unfold nv4_pramdac_set_pixel_clock
  simp only [World.call]
  split_ifs <;> simp_all

/-! ## Clock register round trip and clamping -/

/-- C1: for every value whose M byte and N byte are both non-zero, writing it with the write
hook of a clock register and reading with the matching read hook returns the value masked to
19 bits, in the memory clock domain and in the pixel clock domain. -/
theorem clock_register_roundtrip (E : Env) (s : World) (v : Nat)
    (hm : v &&& 0xFF ≠ 0) (hn : (v >>> 8) &&& 0xFF ≠ 0) :
    nv4_pramdac_get_vram_clock_register (nv4_pramdac_set_vram_clock_register E v s).nv4
        = v &&& 0x7FFFF
      ∧ nv4_pramdac_get_pixel_clock_register (nv4_pramdac_set_pixel_clock_register E v s).nv4
        = v &&& 0x7FFFF := by
  simp only [and_0xFF, shr_8] at hm hn
  constructor
  · simp only [nv4_pramdac_get_vram_clock_register, nv4_pramdac_set_vram_clock_register,
      set_vram_clock_pramdac, u32, and_0xFF, and_0x07, and_0x7FFFF, shr_8, shr_16, shl_8, shl_16]
    simp only [if_neg hm, if_neg hn]
    omega
  · simp only [nv4_pramdac_get_pixel_clock_register, nv4_pramdac_set_pixel_clock_register,
      set_pixel_clock_pramdac, u32, and_0xFF, and_0x07, and_0x7FFFF, shr_8, shr_16, shl_8, shl_16]
    simp only [if_neg hm]
    omega

/-- Witness of C1: the value 0xFFF5C807 (M = 0x07, N = 0xC8, P bits 0x5, upper bits set)
written to a zeroed device reads back as 0x5C807 in both domains. -/
theorem clock_register_roundtrip_witness :
    (0xFFF5C807 &&& 0xFF ≠ 0 ∧ (0xFFF5C807 >>> 8) &&& 0xFF ≠ 0)
      ∧ (nv4_pramdac_get_vram_clock_register
            (nv4_pramdac_set_vram_clock_register E0 0xFFF5C807 zeroed).nv4 = 0xFFF5C807 &&& 0x7FFFF
          ∧ nv4_pramdac_get_pixel_clock_register
            (nv4_pramdac_set_pixel_clock_register E0 0xFFF5C807 zeroed).nv4
              = 0xFFF5C807 &&& 0x7FFFF) :=
  ⟨⟨by decide, by decide⟩, clock_register_roundtrip E0 zeroed 0xFFF5C807 (by decide) (by decide)⟩

/-- C2: after the memory clock register is written with any value, in any state, the M field
(bits 0-7) of the value read back is 1 if the written M byte is 0 and the written M byte
otherwise, and the N field (bits 8-15) is 1 if the written N byte is 0 and the written N byte
otherwise. -/
theorem vram_clock_clamp_persisted (E : Env) (s : World) (v : Nat) :
    nv4_pramdac_get_vram_clock_register (nv4_pramdac_set_vram_clock_register E v s).nv4 &&& 0xFF
        = (if v &&& 0xFF = 0 then 1 else v &&& 0xFF)
      ∧ (nv4_pramdac_get_vram_clock_register
            (nv4_pramdac_set_vram_clock_register E v s).nv4 >>> 8) &&& 0xFF
        = (if (v >>> 8) &&& 0xFF = 0 then 1 else (v >>> 8) &&& 0xFF) := by
  simp only [nv4_pramdac_get_vram_clock_register, nv4_pramdac_set_vram_clock_register,
    set_vram_clock_pramdac, u32, and_0xFF, and_0x07, shr_8, shr_16, shl_8, shl_16]
  constructor <;> split_ifs <;> omega

/-- C3, as the code behaves: when the pixel clock register is written with a value whose
N byte is 0, the N field (bits 8-15) of the value read back is 0, not 1; the M field
(bits 0-7) is clamped as claimed, 1 when the written M byte is 0 and the written M byte
otherwise. -/
theorem pixel_clock_n_clamp_missed (E : Env) (s : World) (v : Nat)
    (hn : (v >>> 8) &&& 0xFF = 0) :
    (nv4_pramdac_get_pixel_clock_register
          (nv4_pramdac_set_pixel_clock_register E v s).nv4 >>> 8) &&& 0xFF = 0
      ∧ nv4_pramdac_get_pixel_clock_register
          (nv4_pramdac_set_pixel_clock_register E v s).nv4 &&& 0xFF
        = (if v &&& 0xFF = 0 then 1 else v &&& 0xFF) := by
  simp only [and_0xFF, shr_8] at hn
  simp only [nv4_pramdac_get_pixel_clock_register, nv4_pramdac_set_pixel_clock_register,
    set_pixel_clock_pramdac, u32, and_0xFF, and_0x07, shr_8, shr_16, shl_8, shl_16]
  constructor <;> split_ifs <;> omega

/-- Witness of C3: the value 0x00010007 (M = 7, N = 0, P = 1) written to the pixel clock
register of a zeroed device reads back with N field 0. -/
theorem pixel_clock_n_clamp_missed_witness :
    (0x00010007 >>> 8) &&& 0xFF = 0
      ∧ ((nv4_pramdac_get_pixel_clock_register
            (nv4_pramdac_set_pixel_clock_register E0 0x00010007 zeroed).nv4 >>> 8) &&& 0xFF = 0
        ∧ nv4_pramdac_get_pixel_clock_register
            (nv4_pramdac_set_pixel_clock_register E0 0x00010007 zeroed).nv4 &&& 0xFF
          = (if 0x00010007 &&& 0xFF = 0 then 1 else 0x00010007 &&& 0xFF)) :=
  ⟨by decide, pixel_clock_n_clamp_missed E0 zeroed 0x00010007 (by decide)⟩

/-! ## The pixel clock with a zero N divisor -/

/-- The frequency `nv4_pramdac_set_pixel_clock` stores: 13.5 MHz times the pixel clock N as it
stands, over the clamped pixel clock M shifted by P. -/
theorem set_pixel_clock_frequency (E : Env) (s : World) :
    (nv4_pramdac_set_pixel_clock E s).nv4.nvbase.pixel_clock_frequency =
      fdiv (some (13500000 * (s.nv4.pramdac.pixel_clock_n : ℚ)))
        (some (u32 ((if s.nv4.pramdac.pixel_clock_m = 0 then 1 else s.nv4.pramdac.pixel_clock_m)
          <<< s.nv4.pramdac.pixel_clock_p) : ℚ)) := by
  unfold nv4_pramdac_set_pixel_clock
  simp only [World.call]
  split_ifs <;> simp_all

/-- The last call `nv4_pramdac_set_pixel_clock` makes is `rivatimer_set_period`, with the
period derived from the frequency it stored. -/
theorem set_pixel_clock_last_call (E : Env) (s : World) :
    (nv4_pramdac_set_pixel_clock E s).calls.getLast? =
      some (Call.rivatimer_set_period
        (nv4_pramdac_set_pixel_clock E s).nv4.nvbase.pixel_clock_timer
        (timer_period E (nv4_pramdac_set_pixel_clock E s).nv4.nvbase.pixel_clock_frequency)) := by
  unfold nv4_pramdac_set_pixel_clock
  simp only [World.call, timer_period]
  split_ifs <;> simp_all

/-- C4, at the failing input: after `nv4_pramdac_init` and one write of 0x00010007 (M = 7,
N = 0, P = 1) to the pixel clock register, in any environment and from any state, the pixel
clock N used in the frequency computation is 0, the stored pixel clock frequency is 0, and the
period handed to `rivatimer_set_period` is the quotient by that zero frequency, which is not a
finite number. -/
theorem pixel_clock_zero_frequency (E : Env) (s : World) :
    (after_clock_writes E s [clock_write.pixel 0x00010007]).nv4.pramdac.pixel_clock_n = 0
      ∧ (after_clock_writes E s [clock_write.pixel 0x00010007]).nv4.nvbase.pixel_clock_frequency
          = some 0
      ∧ (after_clock_writes E s [clock_write.pixel 0x00010007]).calls.getLast?
          = some (Call.rivatimer_set_period
              (after_clock_writes E s [clock_write.pixel 0x00010007]).nv4.nvbase.pixel_clock_timer
              none) := by
  have hf : (after_clock_writes E s
      [clock_write.pixel 0x00010007]).nv4.nvbase.pixel_clock_frequency = some 0 := by
    simp only [after_clock_writes, List.foldl, clock_write.run,
      nv4_pramdac_set_pixel_clock_register, set_pixel_clock_frequency]
    have h1 : (0x00010007 >>> 8) &&& 0xFF = 0 := by decide
    have h2 : 0x00010007 &&& 0xFF = 7 := by decide
    have h3 : (0x00010007 >>> 16) &&& 0x07 = 1 := by decide
    have h4 : u32 (7 <<< 1) = 14 := by decide
    simp only [h1, h2, h3]
    norm_num [fdiv, h4]
  refine ⟨?_, hf, ?_⟩
  · simp only [after_clock_writes, List.foldl, clock_write.run,
      nv4_pramdac_set_pixel_clock_register, set_pixel_clock_pramdac]
    decide
  · simp only [after_clock_writes, List.foldl, clock_write.run,
      nv4_pramdac_set_pixel_clock_register] at hf ⊢
    rw [set_pixel_clock_last_call, hf]
    simp [timer_period, fdiv]

/-! ## The divisors after initialisation -/

/-- C5, at the failing input: immediately after `nv4_pramdac_init`, in any environment and from
any state, both stored P divisors are 12, both clock registers read 0xCC807, which is not
below 2^19, and bits 16-18 of that value are 4, not the stored P. -/
theorem init_p_exceeds_three_bits (E : Env) (s : World) :
    (after_writes E s []).nv4.pramdac.memory_clock_p = 12
      ∧ (after_writes E s []).nv4.pramdac.pixel_clock_p = 12
      ∧ nv4_pramdac_get_vram_clock_register (after_writes E s []).nv4 = 0xCC807
      ∧ nv4_pramdac_get_pixel_clock_register (after_writes E s []).nv4 = 0xCC807
      ∧ 2 ^ 19 ≤ nv4_pramdac_get_vram_clock_register (after_writes E s []).nv4
      ∧ (nv4_pramdac_get_vram_clock_register (after_writes E s []).nv4 >>> 16) &&& 0x07 = 4 := by
  simp only [after_writes, List.foldl, nv4_pramdac_init, World.call,
    nv4_pramdac_get_vram_clock_register, nv4_pramdac_get_pixel_clock_register,
    set_vram_clock_pramdac, set_pixel_clock_pramdac]
  decide

/-! ## Register dispatch -/

/-- C6: reading the pixel clock address returns the value of the pixel clock read hook and
reading the memory clock address returns the value of the memory clock read hook, in every
state; the two values are the same in any other state that has the same six clock divisors,
whatever its other fields hold. The two addresses are taken to differ from each other and from
the list sentinel. -/
theorem read_hook_exclusive (E : Env) (s s' : World)
    (hp : E.NV4_PRAMDAC_CLOCK_PIXEL ≠ E.NV_REG_LIST_END)
    (hm : E.NV4_PRAMDAC_CLOCK_MEMORY ≠ E.NV_REG_LIST_END)
    (hne : E.NV4_PRAMDAC_CLOCK_MEMORY ≠ E.NV4_PRAMDAC_CLOCK_PIXEL)
    (h1 : s'.nv4.pramdac.pixel_clock_m = s.nv4.pramdac.pixel_clock_m)
    (h2 : s'.nv4.pramdac.pixel_clock_n = s.nv4.pramdac.pixel_clock_n)
    (h3 : s'.nv4.pramdac.pixel_clock_p = s.nv4.pramdac.pixel_clock_p)
    (h4 : s'.nv4.pramdac.memory_clock_m = s.nv4.pramdac.memory_clock_m)
    (h5 : s'.nv4.pramdac.memory_clock_n = s.nv4.pramdac.memory_clock_n)
    (h6 : s'.nv4.pramdac.memory_clock_p = s.nv4.pramdac.memory_clock_p) :
    (nv4_pramdac_read E E.NV4_PRAMDAC_CLOCK_PIXEL s).1
        = nv4_pramdac_get_pixel_clock_register s.nv4
      ∧ (nv4_pramdac_read E E.NV4_PRAMDAC_CLOCK_MEMORY s).1
        = nv4_pramdac_get_vram_clock_register s.nv4
      ∧ (nv4_pramdac_read E E.NV4_PRAMDAC_CLOCK_PIXEL s').1
        = (nv4_pramdac_read E E.NV4_PRAMDAC_CLOCK_PIXEL s).1
      ∧ (nv4_pramdac_read E E.NV4_PRAMDAC_CLOCK_MEMORY s').1
        = (nv4_pramdac_read E E.NV4_PRAMDAC_CLOCK_MEMORY s).1 := by
  have hP : ∀ t : World, (nv4_pramdac_read E E.NV4_PRAMDAC_CLOCK_PIXEL t).1
      = nv4_pramdac_get_pixel_clock_register t.nv4 := by
    intro t
    simp [nv4_pramdac_read, pramdac_registers, nv_get_register, hp, World.call]
  have hM : ∀ t : World, (nv4_pramdac_read E E.NV4_PRAMDAC_CLOCK_MEMORY t).1
      = nv4_pramdac_get_vram_clock_register t.nv4 := by
    intro t
    simp [nv4_pramdac_read, pramdac_registers, nv_get_register, hp, hm, Ne.symm hne, World.call]
  refine ⟨hP s, hM s, ?_, ?_⟩
  · rw [hP, hP]
    simp only [nv4_pramdac_get_pixel_clock_register, h1, h2, h3]
  · rw [hM, hM]
    simp only [nv4_pramdac_get_vram_clock_register, h4, h5, h6]

/-- Witness of C6: in the concrete environment the three addresses differ, the scrambled state
has the divisors of the initialised zeroed device, and both reads return the hook values. -/
theorem read_hook_exclusive_witness :
    (nv4_pramdac_read E0 E0.NV4_PRAMDAC_CLOCK_PIXEL (nv4_pramdac_init E0 zeroed)).1
        = nv4_pramdac_get_pixel_clock_register (nv4_pramdac_init E0 zeroed).nv4
      ∧ (nv4_pramdac_read E0 E0.NV4_PRAMDAC_CLOCK_MEMORY (nv4_pramdac_init E0 zeroed)).1
        = nv4_pramdac_get_vram_clock_register (nv4_pramdac_init E0 zeroed).nv4
      ∧ (nv4_pramdac_read E0 E0.NV4_PRAMDAC_CLOCK_PIXEL scrambled).1
        = (nv4_pramdac_read E0 E0.NV4_PRAMDAC_CLOCK_PIXEL (nv4_pramdac_init E0 zeroed)).1
      ∧ (nv4_pramdac_read E0 E0.NV4_PRAMDAC_CLOCK_MEMORY scrambled).1
        = (nv4_pramdac_read E0 E0.NV4_PRAMDAC_CLOCK_MEMORY (nv4_pramdac_init E0 zeroed)).1 :=
  read_hook_exclusive E0 (nv4_pramdac_init E0 zeroed) scrambled (by decide) (by decide)
    (by decide) (by decide) (by decide) (by decide) (by decide) (by decide) (by decide)

/-- C7: at an address for which `nv_get_register` finds no descriptor, in every state, a read
returns 0 and a write of any value does nothing: the device is left as it was and the only
calls made are the two logging calls. -/
theorem unknown_register_ignored (E : Env) (address value : Nat) (s : World)
    (h : nv_get_register E.NV_REG_LIST_END address (pramdac_registers E) = none) :
    (nv4_pramdac_read E address s).1 = 0
      ∧ (nv4_pramdac_read E address s).2.nv4 = s.nv4
      ∧ (nv4_pramdac_read E address s).2.calls
          = s.calls ++ [Call.nv_log_verbose_only, Call.nv_log]
      ∧ (nv4_pramdac_write E address value s).nv4 = s.nv4
      ∧ (nv4_pramdac_write E address value s).calls
          = s.calls ++ [Call.nv_log_verbose_only, Call.nv_log] := by
  simp [nv4_pramdac_read, nv4_pramdac_write, h, World.call]

/-- Witness of C7: address 0x680500 has no descriptor in the concrete environment; reading it
in the scrambled state returns 0 and writing 0xFFFFFFFF to it changes nothing. -/
theorem unknown_register_ignored_witness :
    nv_get_register E0.NV_REG_LIST_END 0x680500 (pramdac_registers E0) = none
      ∧ ((nv4_pramdac_read E0 0x680500 scrambled).1 = 0
        ∧ (nv4_pramdac_read E0 0x680500 scrambled).2.nv4 = scrambled.nv4
        ∧ (nv4_pramdac_read E0 0x680500 scrambled).2.calls
            = scrambled.calls ++ [Call.nv_log_verbose_only, Call.nv_log]
        ∧ (nv4_pramdac_write E0 0x680500 0xFFFFFFFF scrambled).nv4 = scrambled.nv4
        ∧ (nv4_pramdac_write E0 0x680500 0xFFFFFFFF scrambled).calls
            = scrambled.calls ++ [Call.nv_log_verbose_only, Call.nv_log]) :=
  ⟨rfl, unknown_register_ignored E0 0x680500 0xFFFFFFFF scrambled rfl⟩

/-! ## Class 0x0055 -/

/-- C8: for every parameter, method identifier, context and object, in every state, the method
dispatcher of class 0x0055 leaves the device as it was and makes exactly two calls, the
warning and then `nv4_pgraph_interrupt_invalid` with the software-method-pending number; the
interrupt call occurs once among them and no other call is made. -/
theorem class_0055_method_default (E : Env) (param method_id : Nat)
    (context : nv4_ramin_context_t) (grobj : nv4_grobj_t) (s : World) :
    (nv4_class_0055_method E param method_id context grobj s).nv4 = s.nv4
      ∧ (nv4_class_0055_method E param method_id context grobj s).calls
          = s.calls ++ [Call.warning context.class_id method_id,
              Call.nv4_pgraph_interrupt_invalid E.NV4_PGRAPH_INTR_1_SOFTWARE_METHOD_PENDING]
      ∧ (new_calls s (nv4_class_0055_method E param method_id context grobj s)).count
          (Call.nv4_pgraph_interrupt_invalid E.NV4_PGRAPH_INTR_1_SOFTWARE_METHOD_PENDING) = 1 := by
  simp [nv4_class_0055_method, World.call, new_calls]

/-! ## Timer creation -/

/-- A clock recomputation in a domain whose timer is absent logs, creates the timer, starts it
and sets its period; the handle stored is the one `rivatimer_create` returned. -/
theorem set_clock_timer_absent (E : Env) (d : clock_domain) (s : World)
    (h0 : d.timer s = 0) :
    d.timer (d.set_clock E s) = E.rivatimer_create (s.calls ++ [Call.nv_log])
      ∧ (d.set_clock E s).calls = s.calls ++
          [Call.nv_log,
           Call.rivatimer_create (timer_period E (d.frequency (d.set_clock E s))) d.callback,
           Call.rivatimer_start (E.rivatimer_create (s.calls ++ [Call.nv_log])),
           Call.rivatimer_set_period (E.rivatimer_create (s.calls ++ [Call.nv_log]))
             (timer_period E (d.frequency (d.set_clock E s)))] := by
  cases d
  · simp only [clock_domain.timer, clock_domain.set_clock, clock_domain.frequency,
      clock_domain.callback] at h0 ⊢
    unfold nv4_pramdac_set_pixel_clock
    simp only [World.call, timer_period]
    split_ifs <;> simp_all
  · simp only [clock_domain.timer, clock_domain.set_clock, clock_domain.frequency,
      clock_domain.callback] at h0 ⊢
    unfold nv4_pramdac_set_vram_clock
    simp only [World.call, timer_period]
    split_ifs <;> simp_all

/-- A clock recomputation in a domain whose timer exists logs and sets the period of that
timer; the stored handle is kept. -/
theorem set_clock_timer_present (E : Env) (d : clock_domain) (s : World)
    (h0 : d.timer s ≠ 0) :
    d.timer (d.set_clock E s) = d.timer s
      ∧ (d.set_clock E s).calls = s.calls ++
          [Call.nv_log,
           Call.rivatimer_set_period (d.timer s)
             (timer_period E (d.frequency (d.set_clock E s)))] := by
  cases d
  · simp only [clock_domain.timer, clock_domain.set_clock, clock_domain.frequency] at h0 ⊢
    unfold nv4_pramdac_set_pixel_clock
    simp only [World.call, timer_period]
    split_ifs <;> simp_all
  · simp only [clock_domain.timer, clock_domain.set_clock, clock_domain.frequency] at h0 ⊢
    unfold nv4_pramdac_set_vram_clock
    simp only [World.call, timer_period]
    split_ifs <;> simp_all

theorem change_calls (s : World) (f : nv4_pramdac_t → nv4_pramdac_t) :
    (s.change f).calls = s.calls := rfl

theorem change_timer (d : clock_domain) (s : World) (f : nv4_pramdac_t → nv4_pramdac_t) :
    d.timer (s.change f) = d.timer s := by
  cases d <;> rfl

theorem set_clock_calls_cons (E : Env) (d : clock_domain) (s : World)
    (f : nv4_pramdac_t → nv4_pramdac_t) (rest : List (nv4_pramdac_t → nv4_pramdac_t)) :
    set_clock_calls E d s (f :: rest) = set_clock_calls E d (d.set_clock E (s.change f)) rest :=
  rfl

/-- While the timer of a domain exists, a sequence of clock recomputations keeps the handle,
creates and starts nothing, and sets the period once per call. -/
theorem set_clock_calls_present (E : Env) (d : clock_domain)
    (changes : List (nv4_pramdac_t → nv4_pramdac_t)) :
    ∀ s : World, d.timer s ≠ 0 →
      d.timer (set_clock_calls E d s changes) = d.timer s
        ∧ (∃ extra : List Call,
            (set_clock_calls E d s changes).calls = s.calls ++ extra
              ∧ extra.countP Call.is_rivatimer_create = 0
              ∧ extra.countP Call.is_rivatimer_start = 0
              ∧ extra.countP Call.is_rivatimer_set_period = changes.length)
        ∧ (changes ≠ [] → (set_clock_calls E d s changes).calls.getLast?
            = some (Call.rivatimer_set_period (d.timer s)
                (timer_period E (d.frequency (set_clock_calls E d s changes))))) := by
  induction changes with
  | nil =>
    intro s _
    exact ⟨rfl, ⟨[], by simp [set_clock_calls], rfl, rfl, rfl⟩, fun h => absurd rfl h⟩
  | cons f rest ih =>
    intro s hs
    have hs0 : d.timer (s.change f) ≠ 0 := by rw [change_timer]; exact hs
    obtain ⟨ht, hc⟩ := set_clock_timer_present E d (s.change f) hs0
    rw [change_timer] at ht
    rw [change_calls, change_timer] at hc
    have hs1 : d.timer (d.set_clock E (s.change f)) ≠ 0 := by rw [ht]; exact hs
    obtain ⟨ht2, ⟨extra, hc2, h1, h2, h3⟩, h4⟩ := ih _ hs1
    rw [set_clock_calls_cons]
    refine ⟨by rw [ht2, ht], ⟨[Call.nv_log, Call.rivatimer_set_period (d.timer s)
      (timer_period E (d.frequency (d.set_clock E (s.change f))))] ++ extra, ?_, ?_, ?_, ?_⟩, ?_⟩
    · rw [hc2, hc, List.append_assoc]
    · simp [List.countP_cons, h1, Call.is_rivatimer_create]
    · simp [List.countP_cons, h2, Call.is_rivatimer_start]
    · simp [List.countP_cons, h3, Call.is_rivatimer_set_period]
    · intro _
      by_cases hr : rest = []
      · subst hr
        simp [set_clock_calls, hc]
      · rw [h4 hr, ht]

/-- Starting with the timer of a domain absent and a `rivatimer_create` that never returns
`NULL`, a non-empty sequence of clock recomputations creates and starts the timer once, sets
the period once per call, and ends with the handle of the first call stored. -/
theorem set_clock_calls_absent (E : Env) (d : clock_domain) (s : World)
    (changes : List (nv4_pramdac_t → nv4_pramdac_t))
    (h0 : d.timer s = 0) (hcreate : ∀ cs, E.rivatimer_create cs ≠ 0) (hne : changes ≠ []) :
    d.timer (set_clock_calls E d s changes) = E.rivatimer_create (s.calls ++ [Call.nv_log])
      ∧ (new_calls s (set_clock_calls E d s changes)).countP Call.is_rivatimer_create = 1
      ∧ (new_calls s (set_clock_calls E d s changes)).countP Call.is_rivatimer_start = 1
      ∧ (new_calls s (set_clock_calls E d s changes)).countP Call.is_rivatimer_set_period
          = changes.length
      ∧ (set_clock_calls E d s changes).calls.getLast?
          = some (Call.rivatimer_set_period (E.rivatimer_create (s.calls ++ [Call.nv_log]))
              (timer_period E (d.frequency (set_clock_calls E d s changes)))) := by
  cases changes with
  | nil => exact absurd rfl hne
  | cons f rest =>
    have hs0 : d.timer (s.change f) = 0 := by rw [change_timer]; exact h0
    obtain ⟨ht, hc⟩ := set_clock_timer_absent E d (s.change f) hs0
    rw [change_calls] at ht hc
    have hs1 : d.timer (d.set_clock E (s.change f)) ≠ 0 := by rw [ht]; exact hcreate _
    obtain ⟨ht2, ⟨extra, hc2, h1, h2, h3⟩, h4⟩ := set_clock_calls_present E d rest _ hs1
    rw [set_clock_calls_cons]
    have hnew : new_calls s (set_clock_calls E d (d.set_clock E (s.change f)) rest)
        = [Call.nv_log,
           Call.rivatimer_create (timer_period E (d.frequency (d.set_clock E (s.change f))))
             d.callback,
           Call.rivatimer_start (E.rivatimer_create (s.calls ++ [Call.nv_log])),
           Call.rivatimer_set_period (E.rivatimer_create (s.calls ++ [Call.nv_log]))
             (timer_period E (d.frequency (d.set_clock E (s.change f))))] ++ extra := by
      unfold new_calls
      rw [hc2, hc, List.append_assoc, List.drop_left]
    refine ⟨by rw [ht2, ht], ?_, ?_, ?_, ?_⟩
    · rw [hnew]; simp [List.countP_cons, h1, Call.is_rivatimer_create]
    · rw [hnew]; simp [List.countP_cons, h2, Call.is_rivatimer_start]
    · rw [hnew]; simp [List.countP_cons, h3, Call.is_rivatimer_set_period]
    · by_cases hr : rest = []
      · subst hr
        simp [set_clock_calls, hc]
      · rw [h4 hr, ht]

/-- C9: start in a state where the timer of a clock domain (memory or pixel) is absent, with a
`rivatimer_create` that never returns `NULL`, and call the clock recomputation of that domain
repeatedly, the PRAMDAC registers changing arbitrarily before each call. After the first `k`
calls, for every `k` from 1 to the number of calls: `rivatimer_create` was called once and
`rivatimer_start` once (so both in the first call), `rivatimer_set_period` was called `k`
times, the stored handle is the non-null handle stored by the first call, and the last call
made is `rivatimer_set_period` on that handle with the period computed from the frequency of
the `k`-th call. -/
theorem timer_created_once (E : Env) (d : clock_domain) (s : World)
    (changes : List (nv4_pramdac_t → nv4_pramdac_t)) (k : Nat)
    (habsent : d.timer s = 0) (hcreate : ∀ cs, E.rivatimer_create cs ≠ 0)
    (hk1 : 1 ≤ k) (hk : k ≤ changes.length) :
    (new_calls s (set_clock_calls E d s (changes.take k))).countP Call.is_rivatimer_create = 1
      ∧ (new_calls s (set_clock_calls E d s (changes.take k))).countP Call.is_rivatimer_start = 1
      ∧ (new_calls s (set_clock_calls E d s (changes.take k))).countP
          Call.is_rivatimer_set_period = k
      ∧ d.timer (set_clock_calls E d s (changes.take k))
          = d.timer (set_clock_calls E d s (changes.take 1))
      ∧ d.timer (set_clock_calls E d s (changes.take k)) ≠ 0
      ∧ (set_clock_calls E d s (changes.take k)).calls.getLast?
          = some (Call.rivatimer_set_period (d.timer (set_clock_calls E d s (changes.take 1)))
              (timer_period E (d.frequency (set_clock_calls E d s (changes.take k))))) := by
  have hlenk : (changes.take k).length = k := by
    rw [List.length_take]; omega
  have hlen1 : (changes.take 1).length = 1 := by
    rw [List.length_take]; omega
  have hnek : changes.take k ≠ [] := by
    intro h; rw [h] at hlenk; simp at hlenk; omega
  have hne1 : changes.take 1 ≠ [] := by
    intro h; rw [h] at hlen1; simp at hlen1
  obtain ⟨a1, a2, a3, a4, a5⟩ := set_clock_calls_absent E d s _ habsent hcreate hnek
  obtain ⟨b1, -⟩ := set_clock_calls_absent E d s _ habsent hcreate hne1
  refine ⟨a2, a3, by rw [a4, hlenk], by rw [a1, b1], by rw [a1]; exact hcreate _, ?_⟩
  rw [a5, b1]

/-- Witness of C9: two memory clock recomputations on the zeroed device, with different
divisors, in the concrete environment. -/
theorem timer_created_once_witness :
    (clock_domain.memory.timer zeroed = 0 ∧ 1 ≤ 2 ∧ 2 ≤ two_changes.length)
      ∧ ((new_calls zeroed (set_clock_calls E0 clock_domain.memory zeroed
            (two_changes.take 2))).countP Call.is_rivatimer_create = 1
        ∧ (new_calls zeroed (set_clock_calls E0 clock_domain.memory zeroed
            (two_changes.take 2))).countP Call.is_rivatimer_start = 1
        ∧ (new_calls zeroed (set_clock_calls E0 clock_domain.memory zeroed
            (two_changes.take 2))).countP Call.is_rivatimer_set_period = 2
        ∧ clock_domain.memory.timer (set_clock_calls E0 clock_domain.memory zeroed
            (two_changes.take 2))
          = clock_domain.memory.timer (set_clock_calls E0 clock_domain.memory zeroed
            (two_changes.take 1))
        ∧ clock_domain.memory.timer (set_clock_calls E0 clock_domain.memory zeroed
            (two_changes.take 2)) ≠ 0
        ∧ (set_clock_calls E0 clock_domain.memory zeroed (two_changes.take 2)).calls.getLast?
          = some (Call.rivatimer_set_period
              (clock_domain.memory.timer (set_clock_calls E0 clock_domain.memory zeroed
                (two_changes.take 1)))
              (timer_period E0 (clock_domain.memory.frequency
                (set_clock_calls E0 clock_domain.memory zeroed (two_changes.take 2)))))) :=
  ⟨⟨rfl, by decide, by decide⟩,
    timer_created_once E0 clock_domain.memory zeroed two_changes 2 rfl
      (fun cs => Nat.succ_ne_zero cs.length) (by decide) (by decide)⟩

/-! ## Pixel clock polling -/

/-- A rational strictly within one half of an integer rounds to that integer. -/
theorem round_half_even_eq (x : ℚ) (n : Int)
    (h1 : (n : ℚ) - 1 / 2 < x) (h2 : x < (n : ℚ) + 1 / 2) : round_half_even x = n := by
  unfold round_half_even
  rcases le_or_lt (n : ℚ) x with h | h
  · have hf : Int.floor x = n := Int.floor_eq_iff.mpr ⟨h, by linarith⟩
    rw [hf, if_pos (by linarith)]
  · have hf : Int.floor x = n - 1 :=
      Int.floor_eq_iff.mpr ⟨by push_cast; linarith, by push_cast; linarith⟩
    rw [hf, if_neg (by push_cast; linarith), if_pos (by push_cast; linarith)]
    omega

/-- The spacing around a number with binary exponent `e`, outside the subnormal range. -/
theorem binary64_ulp_eq (q : ℚ) (e : Int) (he1 : (2 : ℚ) ^ e ≤ |q|)
    (he2 : |q| < (2 : ℚ) ^ (e + 1)) (hmin : -1022 ≤ e) :
    binary64_ulp q = (2 : ℚ) ^ (e - 52) := by
  have hpos : (0 : ℚ) < |q| := lt_of_lt_of_le (zpow_pos (by norm_num) e) he1
  have hlog : Int.log 2 |q| = e := by
    apply le_antisymm
    · have h := (Int.lt_zpow_iff_log_lt (b := 2) (by norm_num) (x := e + 1) hpos).mp
        (by exact_mod_cast he2)
      omega
    · exact (Int.zpow_le_iff_le_log (b := 2) (by norm_num) hpos).mp (by exact_mod_cast he1)
  unfold binary64_ulp
  rw [hlog, max_eq_left hmin]

/-- Rounding to binary64 of a number with binary exponent `e`: the multiple `n` of the spacing
within half a spacing of it, when that stays below 2 ^ 1024 in size. -/
theorem round_binary64_eq (q r : ℚ) (e n : Int) (he1 : (2 : ℚ) ^ e ≤ |q|)
    (he2 : |q| < (2 : ℚ) ^ (e + 1)) (hmin : -1022 ≤ e)
    (hn1 : (n : ℚ) - 1 / 2 < q / (2 : ℚ) ^ (e - 52))
    (hn2 : q / (2 : ℚ) ^ (e - 52) < (n : ℚ) + 1 / 2)
    (hr : (n : ℚ) * (2 : ℚ) ^ (e - 52) = r)
    (hlt : r < (2 : ℚ) ^ 1024) (hgt : -(2 : ℚ) ^ 1024 < r) :
    round_binary64 q = double.finite r := by
  unfold round_binary64
  simp only [binary64_ulp_eq q e he1 he2 hmin, round_half_even_eq _ n hn1 hn2, hr]
  rw [if_neg (not_le.mpr hlt), if_neg (not_le.mpr hgt)]

/-- The constant `1/60.0` as a double. -/
theorem round_binary64_sixtieth :
    round_binary64 (1 / 60) = double.finite (4803839602528529 / 288230376151711744) := by
  apply round_binary64_eq (1 / 60) _ (-6) 4803839602528529 <;> norm_num [abs_of_pos]

/-- One half is a double. -/
theorem round_binary64_half : round_binary64 (1 / 2) = double.finite (1 / 2) := by
  apply round_binary64_eq (1 / 2) _ (-1) 4503599627370496 <;> norm_num [abs_of_pos]

/-- The number 2 ^ -60 is a double. -/
theorem round_binary64_two_pow_neg_60 :
    round_binary64 (1 / 2 ^ 60) = double.finite (1 / 2 ^ 60) := by
  apply round_binary64_eq (1 / 2 ^ 60) _ (-60) 4503599627370496 <;> norm_num [abs_of_pos]

/-- The sum of one half and 2 ^ -60 rounds back to one half. -/
theorem round_binary64_half_absorbs :
    round_binary64 (1 / 2 + 1 / 2 ^ 60) = double.finite (1 / 2) := by
  apply round_binary64_eq (1 / 2 + 1 / 2 ^ 60) _ (-1) 4503599627370496 <;>
    norm_num [abs_of_pos]

/-- The double nearest to 0.01 is a double. -/
theorem round_binary64_centisecond :
    round_binary64 (5764607523034235 / 576460752303423488)
      = double.finite (5764607523034235 / 576460752303423488) := by
  apply round_binary64_eq (5764607523034235 / 576460752303423488) _ (-7) 5764607523034235 <;>
    norm_num [abs_of_pos]

/-- Twice the double nearest to 0.01 is computed without rounding error. -/
theorem round_binary64_two_centiseconds :
    round_binary64 (5764607523034235 / 576460752303423488
        + 5764607523034235 / 576460752303423488)
      = double.finite (5764607523034235 / 288230376151711744) := by
  apply round_binary64_eq _ _ (-6) 5764607523034235 <;> norm_num [abs_of_pos]

/-- Adding a value to a zero accumulator gives the value. -/
theorem double_zero_add (t : double) (ht : t.is_value) : double.add (.finite 0) t = t := by
  cases t with
  | finite q =>
    show round_binary64 (0 + q) = double.finite q
    rw [zero_add]
    exact ht
  | pos_inf => rfl
  | neg_inf => rfl
  | nan => rfl

/-- A value that is at most another is not above it. -/
theorem double_not_gt_of_le (a b : double) (h : double.le a b = true) :
    double.gt a b = false := by
  cases a <;> cases b <;> simp_all [double.le, double.gt]

/-- The refresh threshold is never zero. -/
theorem refresh_threshold_ne_zero (s : World) : refresh_threshold s ≠ double.finite 0 := by
  unfold refresh_threshold
  split_ifs with h
  · rw [round_binary64_sixtieth]
    intro h0
    injection h0 with h0
    norm_num at h0
  · exact h

/-- The first of two polls, when the step does not exceed the threshold. -/
theorem pixel_clock_poll_below (E : Env) (s : World) (t1 : double)
    (hov : s.nv4.nvbase.svga.override ≠ 0) (hclk : s.nv4.nvbase.refresh_clock = .finite 0)
    (hv : t1.is_value) (h1 : double.le t1 (refresh_threshold s) = true) :
    nv4_pramdac_pixel_clock_poll E t1 s =
      { s with
        nv4.nvbase.refresh_time := refresh_threshold s
        nv4.nvbase.refresh_clock := t1 } := by
  have hgt := double_not_gt_of_le _ _ h1
  unfold nv4_pramdac_pixel_clock_poll
  unfold refresh_threshold at hgt ⊢
  rw [if_neg hov]
  split_ifs at hgt ⊢ with h <;>
    simp only [hclk, double_zero_add t1 hv, hgt, Bool.false_eq_true, if_false]

/-- C10, as stated, fails: with the display in override mode, the accumulator at 0 and a
refresh time of half a second, the non-negative steps `t1 = 0.5` and `t2 = 2 ^ -60` are doubles
with `t1 ≤ T` and `t1 + t2 > T`, yet the two polls make no call at all and leave the
accumulator at 0.5: the sum the code computes, 0.5 + 2 ^ -60 rounded to a double, is 0.5. -/
theorem pixel_clock_poll_sum_absorbed :
    (half_second_refresh.nv4.nvbase.svga.override ≠ 0
        ∧ half_second_refresh.nv4.nvbase.refresh_clock = double.finite 0
        ∧ refresh_threshold half_second_refresh = double.finite (1 / 2)
        ∧ (double.finite (1 / 2)).is_value ∧ (double.finite (1 / 2 ^ 60)).is_value
        ∧ (0 : ℚ) ≤ 1 / 2 ∧ (0 : ℚ) ≤ 1 / 2 ^ 60
        ∧ (1 / 2 : ℚ) ≤ 1 / 2 ∧ (1 / 2 : ℚ) + 1 / 2 ^ 60 > 1 / 2)
      ∧ (nv4_pramdac_pixel_clock_poll E0 (.finite (1 / 2 ^ 60))
          (nv4_pramdac_pixel_clock_poll E0 (.finite (1 / 2)) half_second_refresh)).calls
            = half_second_refresh.calls
      ∧ (nv4_pramdac_pixel_clock_poll E0 (.finite (1 / 2 ^ 60))
          (nv4_pramdac_pixel_clock_poll E0 (.finite (1 / 2))
            half_second_refresh)).nv4.nvbase.refresh_clock = double.finite (1 / 2) := by
  have hT : refresh_threshold half_second_refresh = double.finite (1 / 2) := by
    unfold refresh_threshold
    rw [if_neg]
    · rfl
    · show ¬ double.finite (1 / 2) = double.finite 0
      intro h0
      injection h0 with h0
      norm_num at h0
  have hle : double.le (.finite (1 / 2)) (refresh_threshold half_second_refresh) = true := by
    rw [hT]; simp [double.le]
  have e1 := pixel_clock_poll_below E0 half_second_refresh (.finite (1 / 2)) (by decide) rfl
    round_binary64_half hle
  have hne : ¬ double.finite (1 / 2) = double.finite 0 := by
    intro h0
    injection h0 with h0
    norm_num at h0
  have e2 : nv4_pramdac_pixel_clock_poll E0 (.finite (1 / 2 ^ 60))
      (nv4_pramdac_pixel_clock_poll E0 (.finite (1 / 2)) half_second_refresh)
      = { half_second_refresh with nv4.nvbase.refresh_clock := .finite (1 / 2) } := by
    rw [e1, hT]
    unfold nv4_pramdac_pixel_clock_poll
    have hov : ¬ half_second_refresh.nv4.nvbase.svga.override = 0 := by decide
    simp only [if_neg hov, if_neg hne, double.add, round_binary64_half_absorbs, double.gt,
      lt_self_iff_false, decide_False, Bool.false_eq_true, if_false]
    rfl
  refine ⟨⟨by decide, rfl, hT, round_binary64_half, round_binary64_two_pow_neg_60,
    by norm_num, by norm_num, le_refl _, by norm_num⟩, ?_, ?_⟩
  · rw [e2]
  · rw [e2]

/-- C10, amended: with the display in override mode and the refresh accumulator at 0, let `T`
be the refresh threshold (`refresh_time`, or the double `1/60.0` when that is 0). For doubles
`t1 ≤ T` and `t2` whose sum `t1 + t2`, rounded to a double as the code computes it, exceeds
`T`: the first poll makes no call, leaves the accumulator at `t1` and has `T` stored as
`refresh_time`; the second poll calls `video_blit_memtoscreen` once and leaves the accumulator
at 0, which is not the remainder of the sum over `T`. -/
theorem pixel_clock_poll_two_steps (E : Env) (s : World) (t1 t2 : double)
    (hov : s.nv4.nvbase.svga.override ≠ 0) (hclk : s.nv4.nvbase.refresh_clock = .finite 0)
    (hv : t1.is_value) (h1 : double.le t1 (refresh_threshold s) = true)
    (h2 : double.gt (double.add t1 t2) (refresh_threshold s) = true) :
    (nv4_pramdac_pixel_clock_poll E t1 s).calls = s.calls
      ∧ (nv4_pramdac_pixel_clock_poll E t1 s).nv4.nvbase.refresh_clock = t1
      ∧ (nv4_pramdac_pixel_clock_poll E t1 s).nv4.nvbase.refresh_time = refresh_threshold s
      ∧ (nv4_pramdac_pixel_clock_poll E t2 (nv4_pramdac_pixel_clock_poll E t1 s)).calls
          = s.calls ++ [Call.video_blit_memtoscreen 0 0 E.xsize E.ysize]
      ∧ (nv4_pramdac_pixel_clock_poll E t2
          (nv4_pramdac_pixel_clock_poll E t1 s)).nv4.nvbase.refresh_clock = .finite 0
      ∧ (∀ a b : ℚ, double.add t1 t2 = .finite a → refresh_threshold s = .finite b →
          (nv4_pramdac_pixel_clock_poll E t2
            (nv4_pramdac_pixel_clock_poll E t1 s)).nv4.nvbase.refresh_clock
              ≠ .finite (a - b)) := by
  have hT := refresh_threshold_ne_zero s
  have e1 := pixel_clock_poll_below E s t1 hov hclk hv h1
  have e2 : nv4_pramdac_pixel_clock_poll E t2 (nv4_pramdac_pixel_clock_poll E t1 s) =
      { s with
        nv4.nvbase.refresh_time := refresh_threshold s
        nv4.nvbase.refresh_clock := .finite 0
        calls := s.calls ++ [Call.video_blit_memtoscreen 0 0 E.xsize E.ysize] } := by
    rw [e1]
    unfold nv4_pramdac_pixel_clock_poll
    simp only [World.call]
    rw [if_neg hov, if_neg hT, if_pos h2]
  rw [e2, e1]
  refine ⟨rfl, rfl, rfl, rfl, rfl, ?_⟩
  intro a b ha hb h0
  rw [ha, hb] at h2
  have hlt : b < a := by simpa [double.gt] using h2
  have h0' : (0 : ℚ) = a - b := by
    have : double.finite 0 = double.finite (a - b) := h0
    injection this
  linarith

/-- Witness of C10 (amended): two polls of 0.01 second each on the zeroed device in override
mode, whose threshold is the default `1/60.0`; the sum is 0.02. -/
theorem pixel_clock_poll_two_steps_witness :
    (zeroed_override.nv4.nvbase.svga.override ≠ 0
        ∧ zeroed_override.nv4.nvbase.refresh_clock = double.finite 0
        ∧ centisecond.is_value
        ∧ double.le centisecond (refresh_threshold zeroed_override) = true
        ∧ double.gt (double.add centisecond centisecond)
            (refresh_threshold zeroed_override) = true)
      ∧ ((nv4_pramdac_pixel_clock_poll E0 centisecond zeroed_override).calls
            = zeroed_override.calls
        ∧ (nv4_pramdac_pixel_clock_poll E0 centisecond zeroed_override).nv4.nvbase.refresh_clock
            = centisecond
        ∧ (nv4_pramdac_pixel_clock_poll E0 centisecond zeroed_override).nv4.nvbase.refresh_time
            = refresh_threshold zeroed_override
        ∧ (nv4_pramdac_pixel_clock_poll E0 centisecond
            (nv4_pramdac_pixel_clock_poll E0 centisecond zeroed_override)).calls
            = zeroed_override.calls ++ [Call.video_blit_memtoscreen 0 0 E0.xsize E0.ysize]
        ∧ (nv4_pramdac_pixel_clock_poll E0 centisecond
            (nv4_pramdac_pixel_clock_poll E0 centisecond
              zeroed_override)).nv4.nvbase.refresh_clock = double.finite 0) :=
  have hov : zeroed_override.nv4.nvbase.svga.override ≠ 0 := by decide
  have hclk : zeroed_override.nv4.nvbase.refresh_clock = double.finite 0 := rfl
  have hv : centisecond.is_value := round_binary64_centisecond
  have hT : refresh_threshold zeroed_override
      = double.finite (4803839602528529 / 288230376151711744) := by
    have h0 : zeroed_override.nv4.nvbase.refresh_time = double.finite 0 := rfl
    unfold refresh_threshold
    rw [if_pos h0, round_binary64_sixtieth]
  have h1 : double.le centisecond (refresh_threshold zeroed_override) = true := by
    rw [hT]; norm_num [centisecond, double.le]
  have h2 : double.gt (double.add centisecond centisecond)
      (refresh_threshold zeroed_override) = true := by
    rw [hT]
    simp only [centisecond, double.add, round_binary64_two_centiseconds, double.gt]
    norm_num
  have h := pixel_clock_poll_two_steps E0 zeroed_override centisecond centisecond hov hclk hv
    h1 h2
  ⟨⟨hov, hclk, hv, h1, h2⟩, h.1, h.2.1, h.2.2.1, h.2.2.2.1, h.2.2.2.2.1⟩

/-! ## Lookup of the registers without a hook -/

/-- With pairwise distinct addresses, the registers without a write hook are the eighteen
entries after the two clock registers. -/
theorem hookless_addresses_eq (E : Env) (hd : E.distinct) :
    hookless_addresses E =
      [ E.NV4_PRAMDAC_COEFF_SELECT, E.NV4_PRAMDAC_GENERAL_CONTROL, E.NV4_PRAMDAC_VSERR_WIDTH,
        E.NV4_PRAMDAC_VEQU_END, E.NV4_PRAMDAC_VBBLANK_START, E.NV4_PRAMDAC_VBBLANK_END,
        E.NV4_PRAMDAC_HBLANK_END, E.NV4_PRAMDAC_HBLANK_START, E.NV4_PRAMDAC_VBLANK_END,
        E.NV4_PRAMDAC_VBLANK_START, E.NV4_PRAMDAC_VEQU_START, E.NV4_PRAMDAC_VTOTAL,
        E.NV4_PRAMDAC_HSYNC_WIDTH, E.NV4_PRAMDAC_HBURST_START, E.NV4_PRAMDAC_HBURST_END,
        E.NV4_PRAMDAC_HTOTAL, E.NV4_PRAMDAC_HEQU_WIDTH, E.NV4_PRAMDAC_HSERR_WIDTH ] := by
  simp only [Env.distinct, pramdac_registers, List.map, List.nodup_cons, List.mem_cons,
    List.mem_singleton, not_or, List.not_mem_nil, not_false_eq_true, List.nodup_nil,
    and_true] at hd
  simp [hookless_addresses, pramdac_entries, pramdac_registers, List.takeWhile_cons, hd]

/-- With pairwise distinct addresses, the lookup of a register without a write hook finds a
descriptor with that address and without hooks. -/
theorem lookup_hookless (E : Env) (hd : E.distinct) (a : Nat) (ha : a ∈ hookless_addresses E) :
    ∃ r, nv_get_register E.NV_REG_LIST_END a (pramdac_registers E) = some r
      ∧ r.address = a ∧ r.on_read = none ∧ r.on_write = none := by
  rw [hookless_addresses_eq E hd] at ha
  have hd' := List.nodup_reverse.mpr hd
  simp only [Env.distinct, pramdac_registers, List.map, List.nodup_cons, List.mem_cons,
    List.mem_singleton, not_or, List.not_mem_nil, not_false_eq_true, List.nodup_nil, and_true,
    List.reverse_cons, List.reverse_nil, List.nil_append, List.cons_append,
    List.singleton_append] at hd hd'
  simp only [List.mem_cons, List.mem_singleton, List.not_mem_nil, or_false] at ha
  rcases ha with rfl | rfl | rfl | rfl | rfl | rfl | rfl | rfl | rfl | rfl | rfl | rfl | rfl
    | rfl | rfl | rfl | rfl | rfl <;>
  simp [nv_get_register, pramdac_registers, hd, hd']

/-- A write to a register without hooks is the write switch between two logging calls. -/
theorem write_hookless (E : Env) (hd : E.distinct) (a : Nat) (ha : a ∈ hookless_addresses E)
    (v : Nat) (s : World) :
    nv4_pramdac_write E a v s =
      (nv4_pramdac_write_switch E a v (s.call .nv_log_verbose_only)).call
        .nv_log_verbose_only := by
  obtain ⟨r, h, h1, -, h3⟩ := lookup_hookless E hd a ha
  simp only [nv4_pramdac_write, h, h3, h1]

/-- A read of a register without hooks returns what the read switch returns. -/
theorem read_hookless (E : Env) (hd : E.distinct) (a : Nat) (ha : a ∈ hookless_addresses E)
    (s : World) :
    (nv4_pramdac_read E a s).1 = nv4_pramdac_read_switch E a s.nv4 := by
  obtain ⟨r, h, h1, h2, -⟩ := lookup_hookless E hd a ha
  simp only [nv4_pramdac_read, h, h2, h1, World.call]

/-! ## The fallback switches, case by case -/

/-- The `switch` of `nv4_pramdac_write` taken apart: the first label that equals the address
decides the result, and without such a label nothing is changed. -/
theorem write_switch_analysis (E : Env) (a v : Nat) (s w : World)
    (hw : w = nv4_pramdac_write_switch E a v s) :
    (a = E.NV4_PRAMDAC_COEFF_SELECT ∧ w = { s with nv4.pramdac.coeff_select := v }) ∨
    (a ≠ E.NV4_PRAMDAC_COEFF_SELECT ∧ (
    (a = E.NV4_PRAMDAC_GENERAL_CONTROL ∧ w = { s with
          nv4.pramdac.general_control := v
          nv4.nvbase.svga :=
            E.nv4_recalc_timings { s.nv4 with pramdac.general_control := v }
          calls := s.calls ++ [Call.nv4_recalc_timings] }) ∨
    (a ≠ E.NV4_PRAMDAC_GENERAL_CONTROL ∧ (
    (a = E.NV4_PRAMDAC_VSERR_WIDTH ∧ w = { s with nv4.pramdac.vserr_width := v }) ∨
    (a ≠ E.NV4_PRAMDAC_VSERR_WIDTH ∧ (
    (a = E.NV4_PRAMDAC_VBBLANK_END ∧ w = { s with nv4.pramdac.vbblank_end := v }) ∨
    (a ≠ E.NV4_PRAMDAC_VBBLANK_END ∧ (
    (a = E.NV4_PRAMDAC_VBLANK_END ∧ w = { s with nv4.pramdac.vblank_end := v }) ∨
    (a ≠ E.NV4_PRAMDAC_VBLANK_END ∧ (
    (a = E.NV4_PRAMDAC_VBLANK_START ∧ w = { s with nv4.pramdac.vblank_start := v }) ∨
    (a ≠ E.NV4_PRAMDAC_VBLANK_START ∧ (
    (a = E.NV4_PRAMDAC_VEQU_START ∧ w = { s with nv4.pramdac.vequ_start := v }) ∨
    (a ≠ E.NV4_PRAMDAC_VEQU_START ∧ (
    (a = E.NV4_PRAMDAC_VTOTAL ∧ w = { s with nv4.nvbase.svga.vtotal := v }) ∨
    (a ≠ E.NV4_PRAMDAC_VTOTAL ∧ (
    (a = E.NV4_PRAMDAC_HSYNC_WIDTH ∧ w = { s with nv4.pramdac.hsync_width := v }) ∨
    (a ≠ E.NV4_PRAMDAC_HSYNC_WIDTH ∧ (
    (a = E.NV4_PRAMDAC_HBURST_START ∧ w = { s with nv4.pramdac.hburst_start := v }) ∨
    (a ≠ E.NV4_PRAMDAC_HBURST_START ∧ (
    (a = E.NV4_PRAMDAC_HBURST_END ∧ w = { s with nv4.pramdac.hburst_end := v }) ∨
    (a ≠ E.NV4_PRAMDAC_HBURST_END ∧ (
    (a = E.NV4_PRAMDAC_HBLANK_START ∧ w = { s with nv4.pramdac.hblank_start := v }) ∨
    (a ≠ E.NV4_PRAMDAC_HBLANK_START ∧ (
    (a = E.NV4_PRAMDAC_HBLANK_END ∧ w = { s with nv4.pramdac.hblank_end := v }) ∨
    (a ≠ E.NV4_PRAMDAC_HBLANK_END ∧ (
    (a = E.NV4_PRAMDAC_HTOTAL ∧ w = { s with nv4.pramdac.htotal := v }) ∨
    (a ≠ E.NV4_PRAMDAC_HTOTAL ∧ (
    (a = E.NV4_PRAMDAC_HEQU_WIDTH ∧ w = { s with nv4.pramdac.hequ_width := v }) ∨
    (a ≠ E.NV4_PRAMDAC_HEQU_WIDTH ∧ (
    (a = E.NV4_PRAMDAC_HSERR_WIDTH ∧ w = { s with nv4.pramdac.hserr_width := v }) ∨
    (a ≠ E.NV4_PRAMDAC_HSERR_WIDTH ∧ (
    w = s)))))))))))))))))))))))))))))))) := by
  unfold nv4_pramdac_write_switch at hw
  by_cases h1 : a = E.NV4_PRAMDAC_COEFF_SELECT
  · rw [if_pos h1] at hw
    exact Or.inl ⟨h1, hw⟩
  rw [if_neg h1] at hw
  refine Or.inr ⟨h1, ?_⟩
  by_cases h2 : a = E.NV4_PRAMDAC_GENERAL_CONTROL
  · rw [if_pos h2] at hw
    exact Or.inl ⟨h2, hw⟩
  rw [if_neg h2] at hw
  refine Or.inr ⟨h2, ?_⟩
  by_cases h3 : a = E.NV4_PRAMDAC_VSERR_WIDTH
  · rw [if_pos h3] at hw
    exact Or.inl ⟨h3, hw⟩
  rw [if_neg h3] at hw
  refine Or.inr ⟨h3, ?_⟩
  by_cases h4 : a = E.NV4_PRAMDAC_VBBLANK_END
  · rw [if_pos h4] at hw
    exact Or.inl ⟨h4, hw⟩
  rw [if_neg h4] at hw
  refine Or.inr ⟨h4, ?_⟩
  by_cases h5 : a = E.NV4_PRAMDAC_VBLANK_END
  · rw [if_pos h5] at hw
    exact Or.inl ⟨h5, hw⟩
  rw [if_neg h5] at hw
  refine Or.inr ⟨h5, ?_⟩
  by_cases h6 : a = E.NV4_PRAMDAC_VBLANK_START
  · rw [if_pos h6] at hw
    exact Or.inl ⟨h6, hw⟩
  rw [if_neg h6] at hw
  refine Or.inr ⟨h6, ?_⟩
  by_cases h7 : a = E.NV4_PRAMDAC_VEQU_START
  · rw [if_pos h7] at hw
    exact Or.inl ⟨h7, hw⟩
  rw [if_neg h7] at hw
  refine Or.inr ⟨h7, ?_⟩
  by_cases h8 : a = E.NV4_PRAMDAC_VTOTAL
  · rw [if_pos h8] at hw
    exact Or.inl ⟨h8, hw⟩
  rw [if_neg h8] at hw
  refine Or.inr ⟨h8, ?_⟩
  by_cases h9 : a = E.NV4_PRAMDAC_HSYNC_WIDTH
  · rw [if_pos h9] at hw
    exact Or.inl ⟨h9, hw⟩
  rw [if_neg h9] at hw
  refine Or.inr ⟨h9, ?_⟩
  by_cases h10 : a = E.NV4_PRAMDAC_HBURST_START
  · rw [if_pos h10] at hw
    exact Or.inl ⟨h10, hw⟩
  rw [if_neg h10] at hw
  refine Or.inr ⟨h10, ?_⟩
  by_cases h11 : a = E.NV4_PRAMDAC_HBURST_END
  · rw [if_pos h11] at hw
    exact Or.inl ⟨h11, hw⟩
  rw [if_neg h11] at hw
  refine Or.inr ⟨h11, ?_⟩
  by_cases h12 : a = E.NV4_PRAMDAC_HBLANK_START
  · rw [if_pos h12] at hw
    exact Or.inl ⟨h12, hw⟩
  rw [if_neg h12] at hw
  refine Or.inr ⟨h12, ?_⟩
  by_cases h13 : a = E.NV4_PRAMDAC_HBLANK_END
  · rw [if_pos h13] at hw
    exact Or.inl ⟨h13, hw⟩
  rw [if_neg h13] at hw
  refine Or.inr ⟨h13, ?_⟩
  by_cases h14 : a = E.NV4_PRAMDAC_HTOTAL
  · rw [if_pos h14] at hw
    exact Or.inl ⟨h14, hw⟩
  rw [if_neg h14] at hw
  refine Or.inr ⟨h14, ?_⟩
  by_cases h15 : a = E.NV4_PRAMDAC_HEQU_WIDTH
  · rw [if_pos h15] at hw
    exact Or.inl ⟨h15, hw⟩
  rw [if_neg h15] at hw
  refine Or.inr ⟨h15, ?_⟩
  by_cases h16 : a = E.NV4_PRAMDAC_HSERR_WIDTH
  · rw [if_pos h16] at hw
    exact Or.inl ⟨h16, hw⟩
  rw [if_neg h16] at hw
  refine Or.inr ⟨h16, ?_⟩
  exact hw

/-- The write switch leaves both divisor sets, both frequencies and both timer handles as they
are. -/
theorem write_switch_frame (E : Env) (a v : Nat) (s : World) :
    (nv4_pramdac_write_switch E a v s).nv4.pramdac.memory_clock_m = s.nv4.pramdac.memory_clock_m
      ∧ (nv4_pramdac_write_switch E a v s).nv4.pramdac.memory_clock_n
          = s.nv4.pramdac.memory_clock_n
      ∧ (nv4_pramdac_write_switch E a v s).nv4.pramdac.memory_clock_p
          = s.nv4.pramdac.memory_clock_p
      ∧ (nv4_pramdac_write_switch E a v s).nv4.pramdac.pixel_clock_m
          = s.nv4.pramdac.pixel_clock_m
      ∧ (nv4_pramdac_write_switch E a v s).nv4.pramdac.pixel_clock_n
          = s.nv4.pramdac.pixel_clock_n
      ∧ (nv4_pramdac_write_switch E a v s).nv4.pramdac.pixel_clock_p
          = s.nv4.pramdac.pixel_clock_p
      ∧ (nv4_pramdac_write_switch E a v s).nv4.nvbase.pixel_clock_frequency
          = s.nv4.nvbase.pixel_clock_frequency
      ∧ (nv4_pramdac_write_switch E a v s).nv4.nvbase.memory_clock_frequency
          = s.nv4.nvbase.memory_clock_frequency
      ∧ (nv4_pramdac_write_switch E a v s).nv4.nvbase.pixel_clock_timer
          = s.nv4.nvbase.pixel_clock_timer
      ∧ (nv4_pramdac_write_switch E a v s).nv4.nvbase.memory_clock_timer
          = s.nv4.nvbase.memory_clock_timer := by
  rcases write_switch_analysis E a v s _ rfl with
    ⟨h, e⟩ | ⟨n1, ⟨h, e⟩ | ⟨n2, ⟨h, e⟩ | ⟨n3, ⟨h, e⟩ | ⟨n4, ⟨h, e⟩ | ⟨n5, ⟨h, e⟩ | ⟨n6, ⟨h, e⟩
      | ⟨n7, ⟨h, e⟩ | ⟨n8, ⟨h, e⟩ | ⟨n9, ⟨h, e⟩ | ⟨n10, ⟨h, e⟩ | ⟨n11, ⟨h, e⟩ | ⟨n12, ⟨h, e⟩ |
      ⟨n13, ⟨h, e⟩ | ⟨n14, ⟨h, e⟩ | ⟨n15, ⟨h, e⟩ | ⟨n16, e⟩⟩⟩⟩⟩⟩⟩⟩⟩⟩⟩⟩⟩⟩⟩⟩ <;>
  rw [e] <;>
  exact ⟨rfl, rfl, rfl, rfl, rfl, rfl, rfl, rfl, rfl, rfl⟩

/-- A read through the read switch at an address other than the one written through the write
switch returns what it returned before. -/
theorem read_switch_write_switch_other (E : Env) (a b v : Nat) (s : World) (hne : b ≠ a) :
    nv4_pramdac_read_switch E b (nv4_pramdac_write_switch E a v s).nv4
      = nv4_pramdac_read_switch E b s.nv4 := by
  rcases write_switch_analysis E a v s _ rfl with
    ⟨h, e⟩ | ⟨n1, ⟨h, e⟩ | ⟨n2, ⟨h, e⟩ | ⟨n3, ⟨h, e⟩ | ⟨n4, ⟨h, e⟩ | ⟨n5, ⟨h, e⟩ | ⟨n6, ⟨h, e⟩
      | ⟨n7, ⟨h, e⟩ | ⟨n8, ⟨h, e⟩ | ⟨n9, ⟨h, e⟩ | ⟨n10, ⟨h, e⟩ | ⟨n11, ⟨h, e⟩ | ⟨n12, ⟨h, e⟩ |
      ⟨n13, ⟨h, e⟩ | ⟨n14, ⟨h, e⟩ | ⟨n15, ⟨h, e⟩ | ⟨n16, e⟩⟩⟩⟩⟩⟩⟩⟩⟩⟩⟩⟩⟩⟩⟩⟩ <;>
  rw [e] <;>
  first
    | rfl
    | (subst h; simp only [nv4_pramdac_read_switch, if_neg hne])

/-- The calls of the write switch: one `nv4_recalc_timings` at `NV4_PRAMDAC_GENERAL_CONTROL`,
none elsewhere. -/
theorem write_switch_calls (E : Env) (a v : Nat) (s : World)
    (hcs : E.NV4_PRAMDAC_GENERAL_CONTROL ≠ E.NV4_PRAMDAC_COEFF_SELECT) :
    (nv4_pramdac_write_switch E a v s).calls =
      if a = E.NV4_PRAMDAC_GENERAL_CONTROL then s.calls ++ [Call.nv4_recalc_timings]
      else s.calls := by
  rcases write_switch_analysis E a v s _ rfl with
    ⟨h, e⟩ | ⟨n1, ⟨h, e⟩ | ⟨n2, ⟨h, e⟩ | ⟨n3, ⟨h, e⟩ | ⟨n4, ⟨h, e⟩ | ⟨n5, ⟨h, e⟩ | ⟨n6, ⟨h, e⟩
      | ⟨n7, ⟨h, e⟩ | ⟨n8, ⟨h, e⟩ | ⟨n9, ⟨h, e⟩ | ⟨n10, ⟨h, e⟩ | ⟨n11, ⟨h, e⟩ | ⟨n12, ⟨h, e⟩ |
      ⟨n13, ⟨h, e⟩ | ⟨n14, ⟨h, e⟩ | ⟨n15, ⟨h, e⟩ | ⟨n16, e⟩⟩⟩⟩⟩⟩⟩⟩⟩⟩⟩⟩⟩⟩⟩⟩
  · have hn : ¬ a = E.NV4_PRAMDAC_GENERAL_CONTROL := fun hg => hcs (hg.symm.trans h)
    rw [e, if_neg hn]
  · rw [e, if_pos h]
  · rw [e, if_neg n2]
  · rw [e, if_neg n2]
  · rw [e, if_neg n2]
  · rw [e, if_neg n2]
  · rw [e, if_neg n2]
  · rw [e, if_neg n2]
  · rw [e, if_neg n2]
  · rw [e, if_neg n2]
  · rw [e, if_neg n2]
  · rw [e, if_neg n2]
  · rw [e, if_neg n2]
  · rw [e, if_neg n2]
  · rw [e, if_neg n2]
  · rw [e, if_neg n2]
  · rw [e, if_neg n2]

/-- A read through the read switch at the address just written through the write switch returns
the written value, for the fifteen registers stored in the PRAMDAC, provided the address is
not the one of `NV4_PRAMDAC_VTOTAL`. -/
theorem read_switch_write_switch_same (E : Env) (a v : Nat) (s : World)
    (ha : a ∈ stored_registers E) (hvt : a ≠ E.NV4_PRAMDAC_VTOTAL) :
    nv4_pramdac_read_switch E a (nv4_pramdac_write_switch E a v s).nv4 = v := by
  simp only [stored_registers, List.mem_cons, List.mem_singleton, List.not_mem_nil,
    or_false] at ha
  rcases write_switch_analysis E a v s _ rfl with
    ⟨h, e⟩ | ⟨n1, ⟨h, e⟩ | ⟨n2, ⟨h, e⟩ | ⟨n3, ⟨h, e⟩ | ⟨n4, ⟨h, e⟩ | ⟨n5, ⟨h, e⟩ | ⟨n6, ⟨h, e⟩
      | ⟨n7, ⟨h, e⟩ | ⟨n8, ⟨h, e⟩ | ⟨n9, ⟨h, e⟩ | ⟨n10, ⟨h, e⟩ | ⟨n11, ⟨h, e⟩ | ⟨n12, ⟨h, e⟩ |
      ⟨n13, ⟨h, e⟩ | ⟨n14, ⟨h, e⟩ | ⟨n15, ⟨h, e⟩ | ⟨n16, e⟩⟩⟩⟩⟩⟩⟩⟩⟩⟩⟩⟩⟩⟩⟩⟩
  · rw [e]
    simp only [nv4_pramdac_read_switch, if_pos h]
  · rw [e]
    simp only [nv4_pramdac_read_switch, if_neg n1, if_pos h]
  · rw [e]
    simp only [nv4_pramdac_read_switch, if_neg n1, if_neg n2, if_pos h]
  · rw [e]
    simp only [nv4_pramdac_read_switch, if_neg n1, if_neg n2, if_neg n3, if_pos h]
  · rw [e]
    simp only [nv4_pramdac_read_switch, if_neg n1, if_neg n2, if_neg n3, if_neg n4, if_pos h]
  · rw [e]
    simp only [nv4_pramdac_read_switch, if_neg n1, if_neg n2, if_neg n3, if_neg n4, if_neg n5,
      if_pos h]
  · rw [e]
    simp only [nv4_pramdac_read_switch, if_neg n1, if_neg n2, if_neg n3, if_neg n4, if_neg n5,
      if_neg n6, if_pos h]
  · exact absurd h hvt
  · rw [e]
    simp only [nv4_pramdac_read_switch, if_neg n1, if_neg n2, if_neg n3, if_neg n4, if_neg n5,
      if_neg n6, if_neg n7, if_neg n8, if_pos h]
  · rw [e]
    simp only [nv4_pramdac_read_switch, if_neg n1, if_neg n2, if_neg n3, if_neg n4, if_neg n5,
      if_neg n6, if_neg n7, if_neg n8, if_neg n9, if_pos h]
  · rw [e]
    simp only [nv4_pramdac_read_switch, if_neg n1, if_neg n2, if_neg n3, if_neg n4, if_neg n5,
      if_neg n6, if_neg n7, if_neg n8, if_neg n9, if_neg n10, if_pos h]
  · rw [e]
    simp only [nv4_pramdac_read_switch, if_neg n1, if_neg n2, if_neg n3, if_neg n4, if_neg n5,
      if_neg n6, if_neg n7, if_neg n8, if_neg n9, if_neg n10, if_neg n11, if_pos h]
  · rw [e]
    simp only [nv4_pramdac_read_switch, if_neg n1, if_neg n2, if_neg n3, if_neg n4, if_neg n5,
      if_neg n6, if_neg n7, if_neg n8, if_neg n9, if_neg n10, if_neg n11, if_neg n12, if_pos h]
  · rw [e]
    simp only [nv4_pramdac_read_switch, if_neg n1, if_neg n2, if_neg n3, if_neg n4, if_neg n5,
      if_neg n6, if_neg n7, if_neg n8, if_neg n9, if_neg n10, if_neg n11, if_neg n12, if_neg
      n13, if_pos h]
  · rw [e]
    simp only [nv4_pramdac_read_switch, if_neg n1, if_neg n2, if_neg n3, if_neg n4, if_neg n5,
      if_neg n6, if_neg n7, if_neg n8, if_neg n9, if_neg n10, if_neg n11, if_neg n12, if_neg
      n13, if_neg n14, if_pos h]
  · rw [e]
    simp only [nv4_pramdac_read_switch, if_neg n1, if_neg n2, if_neg n3, if_neg n4, if_neg n5,
      if_neg n6, if_neg n7, if_neg n8, if_neg n9, if_neg n10, if_neg n11, if_neg n12, if_neg
      n13, if_neg n14, if_neg n15, if_pos h]
  · rcases ha with h | h | h | h | h | h | h | h | h | h | h | h | h | h | h
    · exact absurd h n1
    · exact absurd h n2
    · exact absurd h n3
    · exact absurd h n4
    · exact absurd h n5
    · exact absurd h n6
    · exact absurd h n7
    · exact absurd h n9
    · exact absurd h n10
    · exact absurd h n11
    · exact absurd h n12
    · exact absurd h n13
    · exact absurd h n14
    · exact absurd h n15
    · exact absurd h n16

/-! ## The display-timing recompute -/

/-- Distinct addresses: every table address differs from every other one. -/
theorem distinct_general_control_ne_coeff_select (E : Env) (hd : E.distinct) :
    E.NV4_PRAMDAC_GENERAL_CONTROL ≠ E.NV4_PRAMDAC_COEFF_SELECT := by
  intro h
  simp [Env.distinct, pramdac_registers, h] at hd

/-- The number of `nv4_recalc_timings` calls of a write to a register without hooks. -/
theorem recalc_count_hookless (E : Env) (hd : E.distinct) (a v : Nat) (s : World)
    (ha : a ∈ hookless_addresses E) :
    recalc_count E a v s = if a = E.NV4_PRAMDAC_GENERAL_CONTROL then 1 else 0 := by
  unfold recalc_count new_calls
  rw [write_hookless E hd a ha, World.call, World.call,
    write_switch_calls E a v _ (distinct_general_control_ne_coeff_select E hd)]
  split_ifs <;> simp

/-- C11, as stated, fails: in the concrete environment, on the zeroed device and with value 0,
there are no two distinct registers without a write hook whose write calls
`nv4_recalc_timings` exactly once. -/
theorem recalc_addresses_not_two :
    ¬ ∃ a ∈ hookless_addresses E0, ∃ b ∈ hookless_addresses E0,
        a ≠ b ∧ recalc_count E0 a 0 zeroed = 1 ∧ recalc_count E0 b 0 zeroed = 1 := by
  decide

/-- C11, amended: among the registers without a write hook, `NV4_PRAMDAC_GENERAL_CONTROL` is one
of them and is the only one whose write calls `nv4_recalc_timings`, exactly once; the call is
made on the device in which `general_control` already holds the written value. A write to any
other register without a write hook calls it zero times. -/
theorem recalc_only_general_control (E : Env) (a v : Nat) (s : World)
    (hd : E.distinct) (ha : a ∈ hookless_addresses E) :
    recalc_count E a v s = (if a = E.NV4_PRAMDAC_GENERAL_CONTROL then 1 else 0)
      ∧ E.NV4_PRAMDAC_GENERAL_CONTROL ∈ hookless_addresses E
      ∧ (nv4_pramdac_write E E.NV4_PRAMDAC_GENERAL_CONTROL v s).nv4
          = { s.nv4 with
              pramdac.general_control := v
              nvbase.svga := E.nv4_recalc_timings { s.nv4 with pramdac.general_control := v } }
      ∧ (nv4_pramdac_write E E.NV4_PRAMDAC_GENERAL_CONTROL v s).calls
          = s.calls ++ [Call.nv_log_verbose_only, Call.nv4_recalc_timings,
              Call.nv_log_verbose_only] := by
  have hg : E.NV4_PRAMDAC_GENERAL_CONTROL ∈ hookless_addresses E := by
    rw [hookless_addresses_eq E hd]; simp
  have hcs := distinct_general_control_ne_coeff_select E hd
  refine ⟨recalc_count_hookless E hd a v s ha, hg, ?_, ?_⟩
  · rw [write_hookless E hd _ hg]
    unfold nv4_pramdac_write_switch
    rw [if_neg hcs, if_pos rfl]
    rfl
  · rw [write_hookless E hd _ hg]
    unfold nv4_pramdac_write_switch
    rw [if_neg hcs, if_pos rfl]
    simp [World.call]

/-- Witness of C11 (amended): in the concrete environment, a write of 1 to
`NV4_PRAMDAC_GENERAL_CONTROL` on the scrambled device calls the recompute once, and a write to
`NV4_PRAMDAC_HTOTAL` does not call it. -/
theorem recalc_only_general_control_witness :
    (E0.distinct ∧ E0.NV4_PRAMDAC_GENERAL_CONTROL ∈ hookless_addresses E0
        ∧ E0.NV4_PRAMDAC_HTOTAL ∈ hookless_addresses E0)
      ∧ recalc_count E0 E0.NV4_PRAMDAC_GENERAL_CONTROL 1 scrambled = 1
      ∧ recalc_count E0 E0.NV4_PRAMDAC_HTOTAL 1 scrambled = 0 :=
  ⟨⟨by decide, by decide, by decide⟩,
    (recalc_only_general_control E0 E0.NV4_PRAMDAC_GENERAL_CONTROL 1 scrambled
      (by decide) (by decide)).1,
    (recalc_only_general_control E0 E0.NV4_PRAMDAC_HTOTAL 1 scrambled
      (by decide) (by decide)).1⟩

/-! ## The redirected register -/

/-- C12: with pairwise distinct addresses, a write of `v` to `NV4_PRAMDAC_VTOTAL` sets
`svga.vtotal` to `v` and changes nothing else in the device (no PRAMDAC field, divisor,
frequency or timer), so a read of `NV4_PRAMDAC_VTOTAL`, which returns `pramdac.vtotal`, returns
the same value after the write as before. A write to any other register `a` without hooks
leaves everything outside the PRAMDAC fields as it was, except that at
`NV4_PRAMDAC_GENERAL_CONTROL` the display-timing state is what `nv4_recalc_timings` returns. -/
theorem vtotal_redirected (E : Env) (a v : Nat) (s : World)
    (hd : E.distinct) (ha : a ∈ hookless_addresses E) (hne : a ≠ E.NV4_PRAMDAC_VTOTAL) :
    (nv4_pramdac_write E E.NV4_PRAMDAC_VTOTAL v s).nv4
        = { s.nv4 with nvbase.svga.vtotal := v }
      ∧ (nv4_pramdac_write E E.NV4_PRAMDAC_VTOTAL v s).nv4.nvbase.svga.vtotal = v
      ∧ (nv4_pramdac_write E E.NV4_PRAMDAC_VTOTAL v s).nv4.pramdac = s.nv4.pramdac
      ∧ (nv4_pramdac_read E E.NV4_PRAMDAC_VTOTAL
            (nv4_pramdac_write E E.NV4_PRAMDAC_VTOTAL v s)).1
          = (nv4_pramdac_read E E.NV4_PRAMDAC_VTOTAL s).1
      ∧ (nv4_pramdac_read E E.NV4_PRAMDAC_VTOTAL s).1 = s.nv4.pramdac.vtotal
      ∧ (nv4_pramdac_write E a v s).nv4.nvbase
          = (if a = E.NV4_PRAMDAC_GENERAL_CONTROL then
              { s.nv4.nvbase with
                svga := E.nv4_recalc_timings { s.nv4 with pramdac.general_control := v } }
            else s.nv4.nvbase) := by
  have hd0 := hd
  have hd' := List.nodup_reverse.mpr hd
  simp only [Env.distinct, pramdac_registers, List.map, List.nodup_cons, List.mem_cons,
    List.mem_singleton, not_or, List.not_mem_nil, not_false_eq_true, List.nodup_nil, and_true,
    List.reverse_cons, List.reverse_nil, List.nil_append, List.cons_append,
    List.singleton_append] at hd hd'
  have hcs := distinct_general_control_ne_coeff_select E hd0
  have hvt : E.NV4_PRAMDAC_VTOTAL ∈ hookless_addresses E := by
    rw [hookless_addresses_eq E hd0]; simp
  have hw : (nv4_pramdac_write E E.NV4_PRAMDAC_VTOTAL v s).nv4
      = { s.nv4 with nvbase.svga.vtotal := v } := by
    rw [write_hookless E hd0 _ hvt]
    simp [nv4_pramdac_write_switch, World.call, hd, hd']
  refine ⟨hw, by rw [hw], by rw [hw], ?_, ?_, ?_⟩
  · rw [read_hookless E hd0 _ hvt, read_hookless E hd0 _ hvt, hw]
    rfl
  · rw [read_hookless E hd0 _ hvt]
    simp [nv4_pramdac_read_switch, hd, hd']
  · rw [write_hookless E hd0 a ha]
    rcases write_switch_analysis E a v (s.call .nv_log_verbose_only) _ rfl with
      ⟨h, e⟩ | ⟨n1, ⟨h, e⟩ | ⟨n2, ⟨h, e⟩ | ⟨n3, ⟨h, e⟩ | ⟨n4, ⟨h, e⟩ | ⟨n5, ⟨h, e⟩ | ⟨n6, ⟨h, e⟩
      | ⟨n7, ⟨h, e⟩ | ⟨n8, ⟨h, e⟩ | ⟨n9, ⟨h, e⟩ | ⟨n10, ⟨h, e⟩ | ⟨n11, ⟨h, e⟩ | ⟨n12, ⟨h, e⟩ |
      ⟨n13, ⟨h, e⟩ | ⟨n14, ⟨h, e⟩ | ⟨n15, ⟨h, e⟩ | ⟨n16, e⟩⟩⟩⟩⟩⟩⟩⟩⟩⟩⟩⟩⟩⟩⟩⟩
    · have hn : ¬ a = E.NV4_PRAMDAC_GENERAL_CONTROL := fun hg => hcs (hg.symm.trans h)
      rw [e, if_neg hn]; rfl
    · rw [e, if_pos h]; rfl
    · rw [e, if_neg n2]; rfl
    · rw [e, if_neg n2]; rfl
    · rw [e, if_neg n2]; rfl
    · rw [e, if_neg n2]; rfl
    · rw [e, if_neg n2]; rfl
    · exact absurd h hne
    · rw [e, if_neg n2]; rfl
    · rw [e, if_neg n2]; rfl
    · rw [e, if_neg n2]; rfl
    · rw [e, if_neg n2]; rfl
    · rw [e, if_neg n2]; rfl
    · rw [e, if_neg n2]; rfl
    · rw [e, if_neg n2]; rfl
    · rw [e, if_neg n2]; rfl
    · rw [e, if_neg n2]; rfl

/-- Witness of C12: in the concrete environment, a write of 0x20D to `NV4_PRAMDAC_VTOTAL` on
the scrambled device, and a write to `NV4_PRAMDAC_HTOTAL` for the last part. -/
theorem vtotal_redirected_witness :
    (E0.distinct ∧ E0.NV4_PRAMDAC_HTOTAL ∈ hookless_addresses E0
        ∧ E0.NV4_PRAMDAC_HTOTAL ≠ E0.NV4_PRAMDAC_VTOTAL)
      ∧ (nv4_pramdac_write E0 E0.NV4_PRAMDAC_VTOTAL 0x20D scrambled).nv4.nvbase.svga.vtotal
          = 0x20D
      ∧ (nv4_pramdac_write E0 E0.NV4_PRAMDAC_VTOTAL 0x20D scrambled).nv4.pramdac
          = scrambled.nv4.pramdac
      ∧ (nv4_pramdac_read E0 E0.NV4_PRAMDAC_VTOTAL
            (nv4_pramdac_write E0 E0.NV4_PRAMDAC_VTOTAL 0x20D scrambled)).1
          = (nv4_pramdac_read E0 E0.NV4_PRAMDAC_VTOTAL scrambled).1 :=
  have h := vtotal_redirected E0 E0.NV4_PRAMDAC_HTOTAL 0x20D scrambled (by decide) (by decide)
    (by decide)
  ⟨⟨by decide, by decide, by decide⟩, h.2.1, h.2.2.1, h.2.2.2.1⟩

/-! ## Registers stored in the PRAMDAC -/

/-- With pairwise distinct addresses, each of the fifteen stored registers is a register
without hooks and is not `NV4_PRAMDAC_VTOTAL`. -/
theorem stored_registers_hookless (E : Env) (hd : E.distinct) (a : Nat)
    (ha : a ∈ stored_registers E) :
    a ∈ hookless_addresses E ∧ a ≠ E.NV4_PRAMDAC_VTOTAL := by
  have hd0 := hd
  have hd' := List.nodup_reverse.mpr hd
  simp only [Env.distinct, pramdac_registers, List.map, List.nodup_cons, List.mem_cons,
    List.mem_singleton, not_or, List.not_mem_nil, not_false_eq_true, List.nodup_nil, and_true,
    List.reverse_cons, List.reverse_nil, List.nil_append, List.cons_append,
    List.singleton_append] at hd hd'
  rw [hookless_addresses_eq E hd0]
  simp only [stored_registers, List.mem_cons, List.mem_singleton, List.not_mem_nil,
    or_false] at ha
  rcases ha with h | h | h | h | h | h | h | h | h | h | h | h | h | h | h <;>
  subst h <;> simp [hd, hd']

/-- C17: with pairwise distinct addresses, for each of the fifteen registers stored in a
PRAMDAC field of their own, in every state and for every value, a write followed by a read of
the same address returns the written value. -/
theorem stored_register_roundtrip (E : Env) (a v : Nat) (s : World)
    (hd : E.distinct) (ha : a ∈ stored_registers E) :
    (nv4_pramdac_read E a (nv4_pramdac_write E a v s)).1 = v := by
  obtain ⟨hh, hvt⟩ := stored_registers_hookless E hd a ha
  rw [read_hookless E hd a hh, write_hookless E hd a hh]
  exact read_switch_write_switch_same E a v _ ha hvt

/-- Witness of C17: in the concrete environment, 0xDEADBEEF written to `NV4_PRAMDAC_HTOTAL`
of the scrambled device is read back. -/
theorem stored_register_roundtrip_witness :
    (E0.distinct ∧ E0.NV4_PRAMDAC_HTOTAL ∈ stored_registers E0)
      ∧ (nv4_pramdac_read E0 E0.NV4_PRAMDAC_HTOTAL
          (nv4_pramdac_write E0 E0.NV4_PRAMDAC_HTOTAL 0xDEADBEEF scrambled)).1 = 0xDEADBEEF :=
  ⟨⟨by decide, by decide⟩,
    stored_register_roundtrip E0 E0.NV4_PRAMDAC_HTOTAL 0xDEADBEEF scrambled (by decide)
      (by decide)⟩

/-! ## Registers without a hook and without a case -/

/-- The read switch returns 0 at an address that is none of its labels. -/
theorem read_switch_off_cases (E : Env) (a : Nat) (d : nv4_t) (ha : a ∉ read_switch_cases E) :
    nv4_pramdac_read_switch E a d = 0 := by
  simp only [read_switch_cases, List.mem_cons, List.mem_singleton, List.not_mem_nil, or_false,
    not_or] at ha
  obtain ⟨h1, h2, h3, h4, h5, h6, h7, h8, h9, h10, h11, h12, h13, h14, h15, h16⟩ := ha
  simp only [nv4_pramdac_read_switch, if_neg h1, if_neg h2, if_neg h3, if_neg h4, if_neg h5,
    if_neg h6, if_neg h7, if_neg h8, if_neg h9, if_neg h10, if_neg h11, if_neg h12, if_neg h13,
    if_neg h14, if_neg h15, if_neg h16]

/-- The write switch changes nothing at an address that is none of its labels. -/
theorem write_switch_off_cases (E : Env) (a v : Nat) (s : World)
    (ha : a ∉ write_switch_cases E) :
    nv4_pramdac_write_switch E a v s = s := by
  simp only [write_switch_cases, List.mem_cons, List.mem_singleton, List.not_mem_nil, or_false,
    not_or] at ha
  obtain ⟨h1, h2, h3, h4, h5, h6, h7, h8, h9, h10, h11, h12, h13, h14, h15, h16⟩ := ha
  unfold nv4_pramdac_write_switch
  rw [if_neg h1, if_neg h2, if_neg h3, if_neg h4, if_neg h5, if_neg h6, if_neg h7, if_neg h8,
    if_neg h9, if_neg h10, if_neg h11, if_neg h12, if_neg h13, if_neg h14, if_neg h15,
    if_neg h16]

/-- With pairwise distinct addresses, the descriptors in front of the sentinel are the first
twenty entries of the register list. -/
theorem pramdac_entries_eq (E : Env) (hd : E.distinct) :
    pramdac_entries E = (pramdac_registers E).take 20 := by
  simp only [Env.distinct, pramdac_registers, List.map, List.nodup_cons, List.mem_cons,
    List.mem_singleton, not_or, List.not_mem_nil, not_false_eq_true, List.nodup_nil,
    and_true] at hd
  simp [pramdac_entries, pramdac_registers, List.takeWhile_cons, hd]

/-- C18: with pairwise distinct addresses, for `NV4_PRAMDAC_VEQU_END` and
`NV4_PRAMDAC_VBBLANK_START`, which are labels of neither switch, in every state and for every
value: a read returns 0, a write leaves the device unchanged and makes the two logging calls
only, and a read after the write returns 0. Every other descriptor in front of the sentinel has
both hooks, or its address is a label of the read switch and of the write switch. -/
theorem unhandled_registers (E : Env) (a v : Nat) (s : World) (r : nv_register_t)
    (hd : E.distinct)
    (ha : a = E.NV4_PRAMDAC_VEQU_END ∨ a = E.NV4_PRAMDAC_VBBLANK_START)
    (hr : r ∈ pramdac_entries E)
    (hr1 : r.address ≠ E.NV4_PRAMDAC_VEQU_END)
    (hr2 : r.address ≠ E.NV4_PRAMDAC_VBBLANK_START) :
    (a ∉ read_switch_cases E ∧ a ∉ write_switch_cases E)
      ∧ (nv4_pramdac_read E a s).1 = 0
      ∧ (nv4_pramdac_write E a v s).nv4 = s.nv4
      ∧ (nv4_pramdac_write E a v s).calls
          = s.calls ++ [Call.nv_log_verbose_only, Call.nv_log_verbose_only]
      ∧ (nv4_pramdac_read E a (nv4_pramdac_write E a v s)).1 = 0
      ∧ ((r.on_read.isSome ∧ r.on_write.isSome)
          ∨ (r.address ∈ read_switch_cases E ∧ r.address ∈ write_switch_cases E)) := by
  have hd0 := hd
  have hd' := List.nodup_reverse.mpr hd
  simp only [Env.distinct, pramdac_registers, List.map, List.nodup_cons, List.mem_cons,
    List.mem_singleton, not_or, List.not_mem_nil, not_false_eq_true, List.nodup_nil, and_true,
    List.reverse_cons, List.reverse_nil, List.nil_append, List.cons_append,
    List.singleton_append] at hd hd'
  have hh : a ∈ hookless_addresses E := by
    rw [hookless_addresses_eq E hd0]
    rcases ha with h | h <;> subst h <;> simp
  have hrc : a ∉ read_switch_cases E := by
    rcases ha with h | h <;> subst h <;> simp [read_switch_cases, hd, hd']
  have hwc : a ∉ write_switch_cases E := by
    rcases ha with h | h <;> subst h <;> simp [write_switch_cases, hd, hd']
  refine ⟨⟨hrc, hwc⟩, ?_, ?_, ?_, ?_, ?_⟩
  · rw [read_hookless E hd0 a hh]
    exact read_switch_off_cases E a _ hrc
  · rw [write_hookless E hd0 a hh, write_switch_off_cases E a v _ hwc]
    rfl
  · rw [write_hookless E hd0 a hh, write_switch_off_cases E a v _ hwc]
    simp [World.call]
  · rw [read_hookless E hd0 a hh]
    exact read_switch_off_cases E a _ hrc
  · rw [pramdac_entries_eq E hd0] at hr
    simp only [pramdac_registers, List.take, List.mem_cons, List.mem_singleton,
      List.not_mem_nil, or_false] at hr
    rcases hr with h | h | h | h | h | h | h | h | h | h | h | h | h | h | h | h | h | h | h
      | h <;> subst h <;>
    first
      | exact absurd rfl hr1
      | exact absurd rfl hr2
      | exact Or.inl ⟨rfl, rfl⟩
      | exact Or.inr ⟨by simp [read_switch_cases], by simp [write_switch_cases]⟩

/-- Witness of C18: in the concrete environment, `NV4_PRAMDAC_VEQU_END` on the scrambled device
with value 0xFFFFFFFF, and the descriptor of `NV4_PRAMDAC_HTOTAL` as another entry. -/
theorem unhandled_registers_witness :
    (E0.distinct
        ∧ (⟨E0.NV4_PRAMDAC_HTOTAL, some "PRAMDAC - Total Horizontal Lines", none, none⟩ :
            nv_register_t) ∈ pramdac_entries E0)
      ∧ (nv4_pramdac_read E0 E0.NV4_PRAMDAC_VEQU_END scrambled).1 = 0
      ∧ (nv4_pramdac_write E0 E0.NV4_PRAMDAC_VEQU_END 0xFFFFFFFF scrambled).nv4 = scrambled.nv4
      ∧ (nv4_pramdac_read E0 E0.NV4_PRAMDAC_VEQU_END
          (nv4_pramdac_write E0 E0.NV4_PRAMDAC_VEQU_END 0xFFFFFFFF scrambled)).1 = 0 :=
  have hr : (⟨E0.NV4_PRAMDAC_HTOTAL, some "PRAMDAC - Total Horizontal Lines", none, none⟩ :
      nv_register_t) ∈ pramdac_entries E0 := by
    rw [pramdac_entries_eq E0 (by decide)]
    simp [pramdac_registers]
  have h := unhandled_registers E0 E0.NV4_PRAMDAC_VEQU_END 0xFFFFFFFF scrambled
    ⟨E0.NV4_PRAMDAC_HTOTAL, some "PRAMDAC - Total Horizontal Lines", none, none⟩
    (by decide) (Or.inl rfl) hr (by decide) (by decide)
  ⟨⟨by decide, hr⟩, h.2.1, h.2.2.1, h.2.2.2.2.1⟩

/-! ## Frame of a fallback write -/

/-- A read of the pixel clock address returns the value of the pixel clock read hook. -/
theorem read_clock_pixel (E : Env) (s : World)
    (hp : E.NV4_PRAMDAC_CLOCK_PIXEL ≠ E.NV_REG_LIST_END) :
    (nv4_pramdac_read E E.NV4_PRAMDAC_CLOCK_PIXEL s).1
      = nv4_pramdac_get_pixel_clock_register s.nv4 := by
  simp [nv4_pramdac_read, pramdac_registers, nv_get_register, hp, World.call]

/-- A read of the memory clock address returns the value of the memory clock read hook. -/
theorem read_clock_memory (E : Env) (s : World)
    (hp : E.NV4_PRAMDAC_CLOCK_PIXEL ≠ E.NV_REG_LIST_END)
    (hm : E.NV4_PRAMDAC_CLOCK_MEMORY ≠ E.NV_REG_LIST_END)
    (hne : E.NV4_PRAMDAC_CLOCK_MEMORY ≠ E.NV4_PRAMDAC_CLOCK_PIXEL) :
    (nv4_pramdac_read E E.NV4_PRAMDAC_CLOCK_MEMORY s).1
      = nv4_pramdac_get_vram_clock_register s.nv4 := by
  simp [nv4_pramdac_read, pramdac_registers, nv_get_register, hp, hm, Ne.symm hne, World.call]

/-- With pairwise distinct addresses, the two clock addresses differ from each other and from
the sentinel. -/
theorem distinct_clock_addresses (E : Env) (hd : E.distinct) :
    E.NV4_PRAMDAC_CLOCK_PIXEL ≠ E.NV_REG_LIST_END
      ∧ E.NV4_PRAMDAC_CLOCK_MEMORY ≠ E.NV_REG_LIST_END
      ∧ E.NV4_PRAMDAC_CLOCK_MEMORY ≠ E.NV4_PRAMDAC_CLOCK_PIXEL := by
  have hd' := List.nodup_reverse.mpr hd
  simp only [Env.distinct, pramdac_registers, List.map, List.nodup_cons, List.mem_cons,
    List.mem_singleton, not_or, List.not_mem_nil, not_false_eq_true, List.nodup_nil, and_true,
    List.reverse_cons, List.reverse_nil, List.nil_append, List.cons_append,
    List.singleton_append] at hd hd'
  simp [hd, hd']

/-- With pairwise distinct addresses, every label of the write switch is a register without
hooks. -/
theorem write_switch_cases_hookless (E : Env) (hd : E.distinct) (a : Nat)
    (ha : a ∈ write_switch_cases E) : a ∈ hookless_addresses E := by
  rw [hookless_addresses_eq E hd]
  simp only [write_switch_cases, List.mem_cons, List.mem_singleton, List.not_mem_nil,
    or_false] at ha
  rcases ha with h | h | h | h | h | h | h | h | h | h | h | h | h | h | h | h <;>
  subst h <;> simp

/-- With pairwise distinct addresses, a table address is a clock address or the address of a
register without hooks. -/
theorem table_address_cases (E : Env) (hd : E.distinct) (b : Nat)
    (hb : b ∈ (pramdac_entries E).map nv_register_t.address) :
    b = E.NV4_PRAMDAC_CLOCK_PIXEL ∨ b = E.NV4_PRAMDAC_CLOCK_MEMORY
      ∨ b ∈ hookless_addresses E := by
  rw [hookless_addresses_eq E hd]
  rw [pramdac_entries_eq E hd] at hb
  simp only [pramdac_registers, List.take, List.map, List.mem_cons, List.mem_singleton,
    List.not_mem_nil, or_false] at hb
  simp only [List.mem_cons, List.mem_singleton, List.not_mem_nil, or_false]
  exact hb

/-- C20: with pairwise distinct addresses, for every label `a` of the write switch, every value
and every state, the write leaves both divisor sets, both frequencies and both timer handles
as they were, and a read at any other table address `b` returns what it returned before the
write. -/
theorem fallback_write_frame (E : Env) (a b v : Nat) (s : World)
    (hd : E.distinct) (ha : a ∈ write_switch_cases E)
    (hb : b ∈ (pramdac_entries E).map nv_register_t.address) (hne : b ≠ a) :
    ((nv4_pramdac_write E a v s).nv4.pramdac.memory_clock_m = s.nv4.pramdac.memory_clock_m
        ∧ (nv4_pramdac_write E a v s).nv4.pramdac.memory_clock_n = s.nv4.pramdac.memory_clock_n
        ∧ (nv4_pramdac_write E a v s).nv4.pramdac.memory_clock_p = s.nv4.pramdac.memory_clock_p
        ∧ (nv4_pramdac_write E a v s).nv4.pramdac.pixel_clock_m = s.nv4.pramdac.pixel_clock_m
        ∧ (nv4_pramdac_write E a v s).nv4.pramdac.pixel_clock_n = s.nv4.pramdac.pixel_clock_n
        ∧ (nv4_pramdac_write E a v s).nv4.pramdac.pixel_clock_p = s.nv4.pramdac.pixel_clock_p
        ∧ (nv4_pramdac_write E a v s).nv4.nvbase.pixel_clock_frequency
            = s.nv4.nvbase.pixel_clock_frequency
        ∧ (nv4_pramdac_write E a v s).nv4.nvbase.memory_clock_frequency
            = s.nv4.nvbase.memory_clock_frequency
        ∧ (nv4_pramdac_write E a v s).nv4.nvbase.pixel_clock_timer
            = s.nv4.nvbase.pixel_clock_timer
        ∧ (nv4_pramdac_write E a v s).nv4.nvbase.memory_clock_timer
            = s.nv4.nvbase.memory_clock_timer)
      ∧ (nv4_pramdac_read E b (nv4_pramdac_write E a v s)).1 = (nv4_pramdac_read E b s).1 := by
  have hh := write_switch_cases_hookless E hd a ha
  have hw : (nv4_pramdac_write E a v s).nv4
      = (nv4_pramdac_write_switch E a v (s.call .nv_log_verbose_only)).nv4 := by
    rw [write_hookless E hd a hh]; rfl
  have hf := write_switch_frame E a v (s.call .nv_log_verbose_only)
  obtain ⟨f1, f2, f3, f4, f5, f6, f7, f8, f9, f10⟩ := hf
  obtain ⟨hp, hm, hpm⟩ := distinct_clock_addresses E hd
  refine ⟨?_, ?_⟩
  · rw [hw]
    exact ⟨f1, f2, f3, f4, f5, f6, f7, f8, f9, f10⟩
  · rcases table_address_cases E hd b hb with h | h | h
    · subst h
      rw [read_clock_pixel E _ hp, read_clock_pixel E _ hp, hw]
      simp only [nv4_pramdac_get_pixel_clock_register, f4, f5, f6]
      rfl
    · subst h
      rw [read_clock_memory E _ hp hm hpm, read_clock_memory E _ hp hm hpm, hw]
      simp only [nv4_pramdac_get_vram_clock_register, f1, f2, f3]
      rfl
    · rw [read_hookless E hd b h, read_hookless E hd b h, hw]
      exact read_switch_write_switch_other E a b v _ hne

/-- Witness of C20: in the concrete environment, a write of 0xDEADBEEF to
`NV4_PRAMDAC_GENERAL_CONTROL` of the scrambled device leaves the value read at
`NV4_PRAMDAC_HTOTAL` as it was. -/
theorem fallback_write_frame_witness :
    (E0.distinct ∧ E0.NV4_PRAMDAC_GENERAL_CONTROL ∈ write_switch_cases E0
        ∧ E0.NV4_PRAMDAC_HTOTAL ∈ (pramdac_entries E0).map nv_register_t.address
        ∧ E0.NV4_PRAMDAC_HTOTAL ≠ E0.NV4_PRAMDAC_GENERAL_CONTROL)
      ∧ (nv4_pramdac_read E0 E0.NV4_PRAMDAC_HTOTAL
            (nv4_pramdac_write E0 E0.NV4_PRAMDAC_GENERAL_CONTROL 0xDEADBEEF scrambled)).1
          = (nv4_pramdac_read E0 E0.NV4_PRAMDAC_HTOTAL scrambled).1 :=
  ⟨⟨by decide, by decide, by decide, by decide⟩,
    (fallback_write_frame E0 E0.NV4_PRAMDAC_GENERAL_CONTROL E0.NV4_PRAMDAC_HTOTAL 0xDEADBEEF
      scrambled (by decide) (by decide) (by decide) (by decide)).2⟩

/-! ## Independence of the clock domains -/

/-- The pixel clock recomputation leaves the memory clock frequency and timer as they are. -/
theorem set_pixel_clock_memory_frame (E : Env) (s : World) :
    (nv4_pramdac_set_pixel_clock E s).nv4.nvbase.memory_clock_frequency
        = s.nv4.nvbase.memory_clock_frequency
      ∧ (nv4_pramdac_set_pixel_clock E s).nv4.nvbase.memory_clock_timer
        = s.nv4.nvbase.memory_clock_timer := by
  unfold nv4_pramdac_set_pixel_clock
  simp only [World.call]
  split_ifs <;> simp_all

/-- The memory clock recomputation leaves the pixel clock frequency and timer as they are. -/
theorem set_vram_clock_pixel_frame (E : Env) (s : World) :
    (nv4_pramdac_set_vram_clock E s).nv4.nvbase.pixel_clock_frequency
        = s.nv4.nvbase.pixel_clock_frequency
      ∧ (nv4_pramdac_set_vram_clock E s).nv4.nvbase.pixel_clock_timer
        = s.nv4.nvbase.pixel_clock_timer := by
  unfold nv4_pramdac_set_vram_clock
  simp only [World.call]
  split_ifs <;> simp_all

/-- A descriptor found by the lookup is an entry of the table. -/
theorem nv_get_register_mem (list_end address : Nat) (table : List nv_register_t)
    (r : nv_register_t) (h : nv_get_register list_end address table = some r) : r ∈ table := by
  induction table with
  | nil => simp [nv_get_register] at h
  | cons x rest ih =>
    unfold nv_get_register at h
    split_ifs at h with h1 h2
    · cases h
      exact List.mem_cons_self _ _
    · exact List.mem_cons_of_mem _ (ih h)

/-- The write hook of a table entry is one of the two clock register setters, if it has one. -/
theorem table_on_write (E : Env) (r : nv_register_t) (h : r ∈ pramdac_registers E) :
    r.on_write = some nv4_pramdac_set_pixel_clock_register
      ∨ r.on_write = some nv4_pramdac_set_vram_clock_register
      ∨ r.on_write = none := by
  simp only [pramdac_registers, List.mem_cons, List.mem_singleton, List.not_mem_nil,
    or_false] at h
  rcases h with h | h | h | h | h | h | h | h | h | h | h | h | h | h | h | h | h | h | h | h
    | h <;> subst h <;> simp

/-- Non-zero memory clock M and N stay non-zero under any `nv4_pramdac_write`. -/
theorem write_keeps_memory_divisors_nonzero (E : Env) (a v : Nat) (s : World)
    (hm : s.nv4.pramdac.memory_clock_m ≠ 0) (hn : s.nv4.pramdac.memory_clock_n ≠ 0) :
    (nv4_pramdac_write E a v s).nv4.pramdac.memory_clock_m ≠ 0
      ∧ (nv4_pramdac_write E a v s).nv4.pramdac.memory_clock_n ≠ 0 := by
  unfold nv4_pramdac_write
  cases hl : nv_get_register E.NV_REG_LIST_END a (pramdac_registers E) with
  | none => exact ⟨hm, hn⟩
  | some r =>
    have hr := nv_get_register_mem _ _ _ _ hl
    rcases table_on_write E r hr with h | h | h
    · simp only [h, World.call, nv4_pramdac_set_pixel_clock_register, set_pixel_clock_pramdac]
      exact ⟨hm, by split_ifs <;> simp_all⟩
    · simp only [h, World.call, nv4_pramdac_set_vram_clock_register, set_vram_clock_pramdac]
      constructor <;> split_ifs <;> simp_all
    · simp only [h, World.call]
      obtain ⟨f1, f2, -⟩ := write_switch_frame E r.address v
        { nv4 := s.nv4, calls := s.calls ++ [Call.nv_log_verbose_only] }
      exact ⟨by rw [f1]; exact hm, by rw [f2]; exact hn⟩

/-- In every state reached from `nv4_pramdac_init` by `nv4_pramdac_write` calls the memory
clock M and N are non-zero. -/
theorem after_writes_memory_divisors_nonzero (E : Env) (s : World) (ws : List (Nat × Nat)) :
    (after_writes E s ws).nv4.pramdac.memory_clock_m ≠ 0
      ∧ (after_writes E s ws).nv4.pramdac.memory_clock_n ≠ 0 := by
  unfold after_writes
  have h0 : (nv4_pramdac_init E s).nv4.pramdac.memory_clock_m ≠ 0
      ∧ (nv4_pramdac_init E s).nv4.pramdac.memory_clock_n ≠ 0 := by
    simp only [nv4_pramdac_init, World.call, set_vram_clock_pramdac, set_pixel_clock_pramdac]
    decide
  generalize nv4_pramdac_init E s = t at h0
  induction ws generalizing t with
  | nil => exact h0
  | cons w rest ih =>
    exact ih _ (write_keeps_memory_divisors_nonzero E w.1 w.2 t h0.1 h0.2)

/-- A write to the pixel clock address runs the pixel clock write hook between two logging
calls. -/
theorem write_clock_pixel (E : Env) (v : Nat) (s : World)
    (hp : E.NV4_PRAMDAC_CLOCK_PIXEL ≠ E.NV_REG_LIST_END) :
    nv4_pramdac_write E E.NV4_PRAMDAC_CLOCK_PIXEL v s
      = (nv4_pramdac_set_pixel_clock_register E v (s.call .nv_log_verbose_only)).call
          .nv_log_verbose_only := by
  simp [nv4_pramdac_write, pramdac_registers, nv_get_register, hp]

/-- A write to the memory clock address runs the memory clock write hook between two logging
calls. -/
theorem write_clock_memory (E : Env) (v : Nat) (s : World)
    (hp : E.NV4_PRAMDAC_CLOCK_PIXEL ≠ E.NV_REG_LIST_END)
    (hm : E.NV4_PRAMDAC_CLOCK_MEMORY ≠ E.NV_REG_LIST_END)
    (hne : E.NV4_PRAMDAC_CLOCK_MEMORY ≠ E.NV4_PRAMDAC_CLOCK_PIXEL) :
    nv4_pramdac_write E E.NV4_PRAMDAC_CLOCK_MEMORY v s
      = (nv4_pramdac_set_vram_clock_register E v (s.call .nv_log_verbose_only)).call
          .nv_log_verbose_only := by
  simp [nv4_pramdac_write, pramdac_registers, nv_get_register, hp, hm, Ne.symm hne]

/-- C19: in every state reached from `nv4_pramdac_init` by any sequence of `nv4_pramdac_write`
calls, the memory clock M and N are non-zero; a write of any value to the pixel clock register
then leaves the memory clock register value, frequency and timer as they were, and a write of
any value to the memory clock register leaves the pixel clock register value, frequency and
timer as they were. The two clock addresses are taken to differ from each other and from the
list sentinel. -/
theorem clock_domains_independent (E : Env) (s : World) (ws : List (Nat × Nat)) (v : Nat)
    (hp : E.NV4_PRAMDAC_CLOCK_PIXEL ≠ E.NV_REG_LIST_END)
    (hm : E.NV4_PRAMDAC_CLOCK_MEMORY ≠ E.NV_REG_LIST_END)
    (hne : E.NV4_PRAMDAC_CLOCK_MEMORY ≠ E.NV4_PRAMDAC_CLOCK_PIXEL) :
    ((after_writes E s ws).nv4.pramdac.memory_clock_m ≠ 0
        ∧ (after_writes E s ws).nv4.pramdac.memory_clock_n ≠ 0)
      ∧ (nv4_pramdac_get_vram_clock_register
            (nv4_pramdac_write E E.NV4_PRAMDAC_CLOCK_PIXEL v (after_writes E s ws)).nv4
          = nv4_pramdac_get_vram_clock_register (after_writes E s ws).nv4
        ∧ (nv4_pramdac_write E E.NV4_PRAMDAC_CLOCK_PIXEL v
            (after_writes E s ws)).nv4.nvbase.memory_clock_frequency
          = (after_writes E s ws).nv4.nvbase.memory_clock_frequency
        ∧ (nv4_pramdac_write E E.NV4_PRAMDAC_CLOCK_PIXEL v
            (after_writes E s ws)).nv4.nvbase.memory_clock_timer
          = (after_writes E s ws).nv4.nvbase.memory_clock_timer)
      ∧ (nv4_pramdac_get_pixel_clock_register
            (nv4_pramdac_write E E.NV4_PRAMDAC_CLOCK_MEMORY v (after_writes E s ws)).nv4
          = nv4_pramdac_get_pixel_clock_register (after_writes E s ws).nv4
        ∧ (nv4_pramdac_write E E.NV4_PRAMDAC_CLOCK_MEMORY v
            (after_writes E s ws)).nv4.nvbase.pixel_clock_frequency
          = (after_writes E s ws).nv4.nvbase.pixel_clock_frequency
        ∧ (nv4_pramdac_write E E.NV4_PRAMDAC_CLOCK_MEMORY v
            (after_writes E s ws)).nv4.nvbase.pixel_clock_timer
          = (after_writes E s ws).nv4.nvbase.pixel_clock_timer) := by
  obtain ⟨h1, h2⟩ := after_writes_memory_divisors_nonzero E s ws
  generalize after_writes E s ws = t at h1 h2
  refine ⟨⟨h1, h2⟩, ⟨?_, ?_, ?_⟩, ⟨?_, ?_, ?_⟩⟩
  · rw [write_clock_pixel E v t hp]
    simp only [World.call, nv4_pramdac_get_vram_clock_register,
      nv4_pramdac_set_pixel_clock_register, set_pixel_clock_pramdac, if_neg h2]
  · rw [write_clock_pixel E v t hp]
    simp only [World.call, nv4_pramdac_set_pixel_clock_register,
      (set_pixel_clock_memory_frame E _).1]
  · rw [write_clock_pixel E v t hp]
    simp only [World.call, nv4_pramdac_set_pixel_clock_register,
      (set_pixel_clock_memory_frame E _).2]
  · rw [write_clock_memory E v t hp hm hne]
    simp only [World.call, nv4_pramdac_get_pixel_clock_register,
      nv4_pramdac_set_vram_clock_register, set_vram_clock_pramdac]
  · rw [write_clock_memory E v t hp hm hne]
    simp only [World.call, nv4_pramdac_set_vram_clock_register,
      (set_vram_clock_pixel_frame E _).1]
  · rw [write_clock_memory E v t hp hm hne]
    simp only [World.call, nv4_pramdac_set_vram_clock_register,
      (set_vram_clock_pixel_frame E _).2]

/-- Witness of C19: in the concrete environment, after initialising the zeroed device, writing
the pixel clock register with a zero N byte and then `NV4_PRAMDAC_GENERAL_CONTROL`, a further
write of 0 to either clock register leaves the other domain as it was. -/
theorem clock_domains_independent_witness :
    (E0.NV4_PRAMDAC_CLOCK_PIXEL ≠ E0.NV_REG_LIST_END
        ∧ E0.NV4_PRAMDAC_CLOCK_MEMORY ≠ E0.NV_REG_LIST_END
        ∧ E0.NV4_PRAMDAC_CLOCK_MEMORY ≠ E0.NV4_PRAMDAC_CLOCK_PIXEL)
      ∧ nv4_pramdac_get_vram_clock_register
          (nv4_pramdac_write E0 E0.NV4_PRAMDAC_CLOCK_PIXEL 0
            (after_writes E0 zeroed
              [(E0.NV4_PRAMDAC_CLOCK_PIXEL, 0x00010007),
               (E0.NV4_PRAMDAC_GENERAL_CONTROL, 1)])).nv4
        = nv4_pramdac_get_vram_clock_register
          (after_writes E0 zeroed
            [(E0.NV4_PRAMDAC_CLOCK_PIXEL, 0x00010007),
             (E0.NV4_PRAMDAC_GENERAL_CONTROL, 1)]).nv4
      ∧ nv4_pramdac_get_pixel_clock_register
          (nv4_pramdac_write E0 E0.NV4_PRAMDAC_CLOCK_MEMORY 0
            (after_writes E0 zeroed
              [(E0.NV4_PRAMDAC_CLOCK_PIXEL, 0x00010007),
               (E0.NV4_PRAMDAC_GENERAL_CONTROL, 1)])).nv4
        = nv4_pramdac_get_pixel_clock_register
          (after_writes E0 zeroed
            [(E0.NV4_PRAMDAC_CLOCK_PIXEL, 0x00010007),
             (E0.NV4_PRAMDAC_GENERAL_CONTROL, 1)]).nv4 :=
  have h := clock_domains_independent E0 zeroed
    [(E0.NV4_PRAMDAC_CLOCK_PIXEL, 0x00010007), (E0.NV4_PRAMDAC_GENERAL_CONTROL, 1)] 0
    (by decide) (by decide) (by decide)
  ⟨⟨by decide, by decide, by decide⟩, h.2.1.1, h.2.2.1⟩

/-! ## The frequency formula -/

/-- The frequency `nv4_pramdac_set_vram_clock` stores: 13.5 MHz times the clamped memory clock
N, over the clamped memory clock M shifted by P. -/
theorem set_vram_clock_frequency (E : Env) (s : World) :
    (nv4_pramdac_set_vram_clock E s).nv4.nvbase.memory_clock_frequency =
      fdiv (some (13500000 *
          ((if s.nv4.pramdac.memory_clock_n = 0 then 1 else s.nv4.pramdac.memory_clock_n : Nat)
            : ℚ)))
        (some (u32 ((if s.nv4.pramdac.memory_clock_m = 0 then 1
          else s.nv4.pramdac.memory_clock_m) <<< s.nv4.pramdac.memory_clock_p) : ℚ)) := by
  unfold nv4_pramdac_set_vram_clock
  simp only [World.call]
  split_ifs <;> simp_all

/-- For M in 1..255 and P in 0..7 the shift `M << P` lies in [1, 32640] and fits 32 bits. -/
theorem shift_in_range (m p : Nat) (hm1 : 1 ≤ m) (hm : m ≤ 255) (hp : p ≤ 7) :
    1 ≤ m <<< p ∧ m <<< p ≤ 32640 ∧ u32 (m <<< p) = m <<< p := by
  have h2 : 1 ≤ 2 ^ p := Nat.one_le_two_pow
  have h3 : 2 ^ p ≤ 2 ^ 7 := Nat.pow_le_pow_right (by norm_num) hp
  rw [Nat.shiftLeft_eq]
  have h4 : m * 2 ^ p ≤ 255 * 2 ^ 7 := Nat.mul_le_mul hm h3
  have h5 : 1 * 1 ≤ m * 2 ^ p := Nat.mul_le_mul hm1 h2
  refine ⟨by omega, by omega, ?_⟩
  unfold u32
  exact Nat.mod_eq_of_lt (by omega)

/-- On divisors in range, the division of the frequency formula is a finite number, the one of
the specification. -/
theorem fdiv_spec_frequency (m n p : Nat) (hm1 : 1 ≤ m) (hm : m ≤ 255) (hp : p ≤ 7) :
    fdiv (some (13500000 * (n : ℚ))) (some (u32 (m <<< p) : ℚ)) = some (spec_frequency m n p) := by
  obtain ⟨h1, -, h3⟩ := shift_in_range m p hm1 hm hp
  rw [h3]
  have hne : ((m <<< p : Nat) : ℚ) ≠ 0 := by
    have : (m <<< p) ≠ 0 := by omega
    exact_mod_cast this
  simp [fdiv, hne, spec_frequency]

/-- The frequency computed on divisors in range is the one of the specification. -/
theorem computed_frequency_eq (E : Env) (d : clock_domain) (s : World) (m n p : Nat)
    (hm1 : 1 ≤ m) (hm : m ≤ 255) (hn1 : 1 ≤ n) (hp : p ≤ 7) :
    d.computed_frequency E s m n p = some (spec_frequency m n p) := by
  have hm0 : ¬ m = 0 := by omega
  have hn0 : ¬ n = 0 := by omega
  cases d
  · simp only [clock_domain.computed_frequency, clock_domain.frequency, clock_domain.set_clock,
      clock_domain.with_divisors, set_pixel_clock_frequency, if_neg hm0]
    exact fdiv_spec_frequency m n p hm1 hm hp
  · simp only [clock_domain.computed_frequency, clock_domain.frequency, clock_domain.set_clock,
      clock_domain.with_divisors, set_vram_clock_frequency, if_neg hm0, if_neg hn0]
    exact fdiv_spec_frequency m n p hm1 hm hp

/-- The specification's frequency grows strictly with N. -/
theorem spec_frequency_lt_of_n (m n n' p : Nat) (hm1 : 1 ≤ m) (h : n < n') :
    spec_frequency m n p < spec_frequency m n' p := by
  unfold spec_frequency
  have hpos : (0 : ℚ) < ((m <<< p : Nat) : ℚ) := by
    rw [Nat.shiftLeft_eq]
    have : 0 < m * 2 ^ p := Nat.mul_pos (by omega) (Nat.two_pow_pos p)
    exact_mod_cast this
  have hn : (n : ℚ) < (n' : ℚ) := by exact_mod_cast h
  apply div_lt_div_of_pos_right _ hpos
  linarith

/-- The specification's frequency falls strictly when the shifted divisor grows. -/
theorem spec_frequency_lt_of_shift (m m' n p p' : Nat) (hm1 : 1 ≤ m) (hn1 : 1 ≤ n)
    (h : m <<< p < m' <<< p') :
    spec_frequency m' n p' < spec_frequency m n p := by
  unfold spec_frequency
  have hpos : (0 : ℚ) < ((m <<< p : Nat) : ℚ) := by
    rw [Nat.shiftLeft_eq]
    have : 0 < m * 2 ^ p := Nat.mul_pos (by omega) (Nat.two_pow_pos p)
    exact_mod_cast this
  have hlt : ((m <<< p : Nat) : ℚ) < ((m' <<< p' : Nat) : ℚ) := by exact_mod_cast h
  have hnum : (0 : ℚ) < 13500000 * (n : ℚ) := by
    have : (1 : ℚ) ≤ (n : ℚ) := by exact_mod_cast hn1
    linarith
  exact div_lt_div_of_pos_left hnum hpos hlt

/-- C14: the frequency stored by the clock recomputation of either domain on divisors M in
1..255, N in 1..255, P in 0..7 is the finite number 13500000 * N / (M << P), and it is strictly
monotone: a larger N in range gives a strictly higher frequency, a larger M in range a strictly
lower one, and a larger P in range a strictly lower one. -/
theorem pll_frequency_monotone (E : Env) (d : clock_domain) (s : World)
    (m n p m' n' p' : Nat)
    (hm1 : 1 ≤ m) (hm : m ≤ 255) (hn1 : 1 ≤ n) (hn : n ≤ 255) (hp : p ≤ 7)
    (hm' : m' ≤ 255) (hn' : n' ≤ 255) (hp' : p' ≤ 7) :
    d.computed_frequency E s m n p = some (spec_frequency m n p)
      ∧ (n < n' → fp_lt (d.computed_frequency E s m n p) (d.computed_frequency E s m n' p))
      ∧ (m < m' → fp_lt (d.computed_frequency E s m' n p) (d.computed_frequency E s m n p))
      ∧ (p < p' → fp_lt (d.computed_frequency E s m n p') (d.computed_frequency E s m n p)) := by
  have e := computed_frequency_eq E d s m n p hm1 hm hn1 hp
  refine ⟨e, ?_, ?_, ?_⟩
  · intro h
    rw [e, computed_frequency_eq E d s m n' p hm1 hm (by omega) hp]
    exact spec_frequency_lt_of_n m n n' p hm1 h
  · intro h
    rw [e, computed_frequency_eq E d s m' n p (by omega) hm' hn1 hp]
    apply spec_frequency_lt_of_shift m m' n p p hm1 hn1
    rw [Nat.shiftLeft_eq, Nat.shiftLeft_eq]
    exact Nat.mul_lt_mul_of_pos_right h (Nat.two_pow_pos p)
  · intro h
    rw [e, computed_frequency_eq E d s m n p' hm1 hm hn1 hp']
    apply spec_frequency_lt_of_shift m m n p p' hm1 hn1
    rw [Nat.shiftLeft_eq, Nat.shiftLeft_eq]
    exact Nat.mul_lt_mul_of_pos_left (Nat.pow_lt_pow_right (by norm_num) h) (by omega)

/-- Witness of C14: the memory clock on M = 7, N = 200, P = 4 against N = 201, M = 8 and P = 5,
in the concrete environment. -/
theorem pll_frequency_monotone_witness :
    ((1 ≤ 7 ∧ 7 ≤ 255 ∧ 1 ≤ 200 ∧ 200 ≤ 255 ∧ 4 ≤ 7) ∧ (8 ≤ 255 ∧ 201 ≤ 255 ∧ 5 ≤ 7))
      ∧ clock_domain.memory.computed_frequency E0 zeroed 7 200 4 = some (spec_frequency 7 200 4)
      ∧ fp_lt (clock_domain.memory.computed_frequency E0 zeroed 7 200 4)
          (clock_domain.memory.computed_frequency E0 zeroed 7 201 4)
      ∧ fp_lt (clock_domain.memory.computed_frequency E0 zeroed 8 200 4)
          (clock_domain.memory.computed_frequency E0 zeroed 7 200 4)
      ∧ fp_lt (clock_domain.memory.computed_frequency E0 zeroed 7 200 5)
          (clock_domain.memory.computed_frequency E0 zeroed 7 200 4) :=
  have h := pll_frequency_monotone E0 clock_domain.memory zeroed 7 200 4 8 201 5
    (by decide) (by decide) (by decide) (by decide) (by decide) (by decide) (by decide)
    (by decide)
  ⟨⟨⟨by decide, by decide, by decide, by decide, by decide⟩, by decide, by decide, by decide⟩,
    h.1, h.2.1 (by decide), h.2.2.1 (by decide), h.2.2.2 (by decide)⟩

/-! ## The memory clock after initialisation -/

/-- C13, as stated, fails: on the zeroed device in the concrete environment the memory clock
frequency stored by `nv4_pramdac_init` is 13500000 * 200 / (7 << 12), but that value does not
round to 470609 Hz. -/
theorem init_frequency_not_470609 :
    ¬ ((nv4_pramdac_init E0 zeroed).nv4.nvbase.memory_clock_frequency
          = some (spec_frequency 7 200 12)
        ∧ nearest_hertz (spec_frequency 7 200 12) = 470609) := by
  intro h
  have h2 := h.2
  norm_num [nearest_hertz, spec_frequency, Nat.shiftLeft_eq, Int.floor_eq_iff] at h2

/-- C13, amended: after `nv4_pramdac_init`, in any environment and from any state, the stored
memory clock frequency is 13500000 * 200 / (7 << 12) Hz, which is 10546875 / 112 Hz and rounds
to 94169 Hz. -/
theorem init_memory_clock_frequency (E : Env) (s : World) :
    (nv4_pramdac_init E s).nv4.nvbase.memory_clock_frequency = some (spec_frequency 7 200 12)
      ∧ spec_frequency 7 200 12 = 10546875 / 112
      ∧ nearest_hertz (spec_frequency 7 200 12) = 94169 := by
  refine ⟨?_, ?_, ?_⟩
  · simp only [nv4_pramdac_init, World.call, set_vram_clock_frequency, set_pixel_clock_pramdac]
    have h4 : u32 28672 = 28672 := by decide
    have h5 : (7 : Nat) <<< 12 = 28672 := by decide
    norm_num [fdiv, spec_frequency, h4, h5]
  · have h5 : (7 : Nat) <<< 12 = 28672 := by decide
    norm_num [spec_frequency, h5]
  · have h5 : (7 : Nat) <<< 12 = 28672 := by decide
    norm_num [nearest_hertz, spec_frequency, h5, Int.floor_eq_iff]

/-! ## Memory clock polling -/

/-- C15: for every elapsed time, the memory clock poll leaves the device as it was and makes
exactly three calls, in this order: `nv4_ptimer_tick` with the elapsed time,
`nv4_pfifo_cache0_pull`, `nv4_pfifo_cache1_pull`. -/
theorem memory_clock_poll_cascade (real_time : ℚ) (s : World) :
    (nv4_pramdac_memory_clock_poll real_time s).nv4 = s.nv4
      ∧ (nv4_pramdac_memory_clock_poll real_time s).calls
          = s.calls ++ [Call.nv4_ptimer_tick real_time, Call.nv4_pfifo_cache0_pull,
              Call.nv4_pfifo_cache1_pull] := by
  simp [nv4_pramdac_memory_clock_poll, World.call]

/-! ## Frequency and period of the memory clock -/

/-- C16: after `nv4_pramdac_set_vram_clock`, from every state: the stored memory clock M and N
are the previous ones with 0 replaced by 1 and P is the previous P; the stored frequency is
13500000 times the stored N divided by the stored M shifted by the stored P (as a 32-bit
shift); exactly one `rivatimer_set_period` call is made, on the stored timer with the period
1000000 * fix quotient / that frequency. When the stored M is at most 255 and the stored P at
most 7, the shift lies in [1, 32640], is not changed by the wrap to 32 bits, and the frequency
is the finite number 13500000 * N / (M << P). -/
theorem vram_clock_frequency_and_period (E : Env) (s : World) :
    ((nv4_pramdac_set_vram_clock E s).nv4.pramdac.memory_clock_m
          = (if s.nv4.pramdac.memory_clock_m = 0 then 1 else s.nv4.pramdac.memory_clock_m)
        ∧ (nv4_pramdac_set_vram_clock E s).nv4.pramdac.memory_clock_n
          = (if s.nv4.pramdac.memory_clock_n = 0 then 1 else s.nv4.pramdac.memory_clock_n)
        ∧ (nv4_pramdac_set_vram_clock E s).nv4.pramdac.memory_clock_p
          = s.nv4.pramdac.memory_clock_p)
      ∧ (nv4_pramdac_set_vram_clock E s).nv4.nvbase.memory_clock_frequency
          = fdiv
              (some (13500000 *
                ((nv4_pramdac_set_vram_clock E s).nv4.pramdac.memory_clock_n : ℚ)))
              (some (u32 ((nv4_pramdac_set_vram_clock E s).nv4.pramdac.memory_clock_m
                <<< (nv4_pramdac_set_vram_clock E s).nv4.pramdac.memory_clock_p) : ℚ))
      ∧ (new_calls s (nv4_pramdac_set_vram_clock E s)).filter Call.is_rivatimer_set_period
          = [Call.rivatimer_set_period
              (nv4_pramdac_set_vram_clock E s).nv4.nvbase.memory_clock_timer
              (timer_period E (nv4_pramdac_set_vram_clock E s).nv4.nvbase.memory_clock_frequency)]
      ∧ ((nv4_pramdac_set_vram_clock E s).nv4.pramdac.memory_clock_m ≤ 255 →
          (nv4_pramdac_set_vram_clock E s).nv4.pramdac.memory_clock_p ≤ 7 →
          (1 ≤ (nv4_pramdac_set_vram_clock E s).nv4.pramdac.memory_clock_m
                <<< (nv4_pramdac_set_vram_clock E s).nv4.pramdac.memory_clock_p
            ∧ (nv4_pramdac_set_vram_clock E s).nv4.pramdac.memory_clock_m
                <<< (nv4_pramdac_set_vram_clock E s).nv4.pramdac.memory_clock_p ≤ 32640
            ∧ u32 ((nv4_pramdac_set_vram_clock E s).nv4.pramdac.memory_clock_m
                <<< (nv4_pramdac_set_vram_clock E s).nv4.pramdac.memory_clock_p)
              = (nv4_pramdac_set_vram_clock E s).nv4.pramdac.memory_clock_m
                <<< (nv4_pramdac_set_vram_clock E s).nv4.pramdac.memory_clock_p
            ∧ (nv4_pramdac_set_vram_clock E s).nv4.nvbase.memory_clock_frequency
              = some (spec_frequency (nv4_pramdac_set_vram_clock E s).nv4.pramdac.memory_clock_m
                  (nv4_pramdac_set_vram_clock E s).nv4.pramdac.memory_clock_n
                  (nv4_pramdac_set_vram_clock E s).nv4.pramdac.memory_clock_p))) := by
  have hfreq : (nv4_pramdac_set_vram_clock E s).nv4.nvbase.memory_clock_frequency
      = fdiv (some (13500000 * ((nv4_pramdac_set_vram_clock E s).nv4.pramdac.memory_clock_n : ℚ)))
          (some (u32 ((nv4_pramdac_set_vram_clock E s).nv4.pramdac.memory_clock_m
            <<< (nv4_pramdac_set_vram_clock E s).nv4.pramdac.memory_clock_p) : ℚ)) := by
    rw [set_vram_clock_frequency, set_vram_clock_pramdac]
  have hm1 : 1 ≤ (nv4_pramdac_set_vram_clock E s).nv4.pramdac.memory_clock_m := by
    rw [set_vram_clock_pramdac]
    show 1 ≤ (if s.nv4.pramdac.memory_clock_m = 0 then 1 else s.nv4.pramdac.memory_clock_m)
    split_ifs <;> omega
  refine ⟨?_, hfreq, ?_, ?_⟩
  · rw [set_vram_clock_pramdac]
    exact ⟨rfl, rfl, rfl⟩
  · by_cases h0 : s.nv4.nvbase.memory_clock_timer = 0
    · obtain ⟨ht, hc⟩ := set_clock_timer_absent E clock_domain.memory s h0
      simp only [clock_domain.timer, clock_domain.set_clock, clock_domain.frequency] at ht hc
      unfold new_calls
      rw [hc, List.drop_left, ht]
      simp [Call.is_rivatimer_set_period]
    · obtain ⟨ht, hc⟩ := set_clock_timer_present E clock_domain.memory s h0
      simp only [clock_domain.timer, clock_domain.set_clock, clock_domain.frequency] at ht hc
      unfold new_calls
      rw [hc, List.drop_left, ht]
      simp [Call.is_rivatimer_set_period]
  · intro hm hp
    obtain ⟨a1, a2, a3⟩ := shift_in_range _ _ hm1 hm hp
    refine ⟨a1, a2, a3, ?_⟩
    rw [hfreq]
    exact fdiv_spec_frequency _ _ _ hm1 hm hp

/-- Witness of C16: the initialised zeroed device with the memory clock divisors set to M = 0,
N = 0, P = 7, in the concrete environment: the recomputation stores M = 1, N = 1 and the
frequency 13500000 * 1 / (1 << 7). -/
theorem vram_clock_frequency_and_period_witness :
    ((nv4_pramdac_set_vram_clock E0
          (clock_domain.memory.with_divisors (nv4_pramdac_init E0 zeroed) 0 0 7)
        ).nv4.pramdac.memory_clock_m ≤ 255
      ∧ (nv4_pramdac_set_vram_clock E0
          (clock_domain.memory.with_divisors (nv4_pramdac_init E0 zeroed) 0 0 7)
        ).nv4.pramdac.memory_clock_p ≤ 7)
      ∧ (nv4_pramdac_set_vram_clock E0
          (clock_domain.memory.with_divisors (nv4_pramdac_init E0 zeroed) 0 0 7)
        ).nv4.nvbase.memory_clock_frequency
        = some (spec_frequency
            (nv4_pramdac_set_vram_clock E0
              (clock_domain.memory.with_divisors (nv4_pramdac_init E0 zeroed) 0 0 7)
            ).nv4.pramdac.memory_clock_m
            (nv4_pramdac_set_vram_clock E0
              (clock_domain.memory.with_divisors (nv4_pramdac_init E0 zeroed) 0 0 7)
            ).nv4.pramdac.memory_clock_n
            (nv4_pramdac_set_vram_clock E0
              (clock_domain.memory.with_divisors (nv4_pramdac_init E0 zeroed) 0 0 7)
            ).nv4.pramdac.memory_clock_p) :=
  have hm : (nv4_pramdac_set_vram_clock E0
      (clock_domain.memory.with_divisors (nv4_pramdac_init E0 zeroed) 0 0 7)
    ).nv4.pramdac.memory_clock_m ≤ 255 := by
    rw [set_vram_clock_pramdac]; decide
  have hp : (nv4_pramdac_set_vram_clock E0
      (clock_domain.memory.with_divisors (nv4_pramdac_init E0 zeroed) 0 0 7)
    ).nv4.pramdac.memory_clock_p ≤ 7 := by
    rw [set_vram_clock_pramdac]; decide
  ⟨⟨hm, hp⟩,
    ((vram_clock_frequency_and_period E0
      (clock_domain.memory.with_divisors (nv4_pramdac_init E0 zeroed) 0 0 7)).2.2.2 hm hp
    ).2.2.2⟩

end NV4
